import Mathlib

/-!
Shallow embedding of the Krylov-solver layer of
`tensornetwork/backends/jax/jax_backend.py`: the argument validation, the two
process-wide caches `_CACHED_MATVECS` and `_CACHED_FUNCTIONS`, and the
hand-off to the compiled iteration routines of `jitted_functions` (which are
external to this file and are represented by an explicit routine parameter).
-/

namespace TensorNetworkJax

/-- Numeric dtypes of the array backend relevant to the solver layer. -/
inductive Dtype
  | float32
  | float64
  | complex64
  | complex128
deriving DecidableEq, Repr

/-- A tensor value as seen by the backend validation layer: whether it is a
jax array (the `isinstance(x, jnp.ndarray)` test), its shape and its dtype. -/
structure Ten where
  isJax : Bool
  shape : List Nat
  dtype : Dtype
deriving DecidableEq, Repr

/-- Model of numpy/jax `x.size`: the product of the dimensions. -/
def Ten.size (t : Ten) : Nat := t.shape.prod

/-- Model of `JaxBackend.randn`: produces a jax array of the requested shape
and dtype. -/
def randn (shape : List Nat) (dtype : Dtype) : Ten := ⟨true, shape, dtype⟩

/-- Model of `JaxBackend.zeros` as called by `gmres` with an explicit dtype. -/
def zeros (shape : List Nat) (dtype : Dtype) : Ten := ⟨true, shape, dtype⟩

/-- The wrapped operator stored in `_CACHED_MATVECS`: `eigs` stores
`jax.tree_util.Partial(jax.jit(A))` (line 330), while `eigsh_lanczos`
(line 438) and `gmres` (line 583) store `jax.tree_util.Partial(A)`.
Operator functions are identified by their python `id`, modelled as a `Nat`:
two structurally identical functions with different ids are different keys. -/
inductive Wrapped
  | wrapJit (f : Nat)
  | wrapPlain (f : Nat)
deriving DecidableEq, Repr

/-- The compiled iteration routines stored in `_CACHED_FUNCTIONS`, one per
algorithm name: `_implicitly_restarted_arnoldi`, `_generate_jitted_eigsh_lanczos`
and `gmres_wrapper` from `jitted_functions`. -/
inductive AlgFun
  | impArnoldi
  | eigshLanczos
  | gmresF
deriving DecidableEq, Repr

/-- Association-list lookup, modelling a python dict read. -/
def assocLookup {α β : Type} [DecidableEq α] : List (α × β) → α → Option β
  | [], _ => none
  | (k, v) :: rest, a => if k = a then some v else assocLookup rest a

/-- The two process-wide caches of the jax backend (`_CACHED_MATVECS` keyed
by operator identity, `_CACHED_FUNCTIONS` keyed by algorithm name).
Insertion of a fresh key is modelled by prepending, which agrees with the
python dict because a key is only ever inserted when absent. -/
structure Caches where
  matvecs : List (Nat × Wrapped)
  functions : List (String × AlgFun)
deriving DecidableEq, Repr

/-- Python exceptions raised by the validation layer, with their message. -/
inductive PyErr
  | valueError (msg : String)
  | typeError (msg : String)
  | notImplementedError (msg : String)
deriving DecidableEq, Repr

/-- Message of the unsupported-`which` rejection in `eigs` (line 315). -/
def whichMsg : String := "which is currently not supported."

/-- Message of the Krylov-size rejections in `eigs` (line 318) and
`eigsh_lanczos` (line 422). -/
def nkvMsg : String := "num_krylov_vecs >= numeig required!"

/-- Message of the reorthogonalization rejection in `eigsh_lanczos`
(lines 425-427). -/
def reorthMsg : String := "Use reorthogonalize=True for numeig > 1"

/-- Message of the missing shape/dtype rejection in `eigs` (lines 322-323)
and `eigsh_lanczos` (lines 430-431). -/
def initMsg : String := "if no initial_state is passed, then shape and dtype have to be provided"

/-- Message of the tensor-type rejection in `eigs` (line 327) and
`eigsh_lanczos` (line 435). -/
def typeMsg : String := "Expected a jax.array."

/-- Message of the `x0` shape rejection in `gmres` (lines 550-553). -/
def x0ShapeMsg : String := "If x0 is supplied, its shape must match b."

/-- Message of the `x0` dtype rejection in `gmres` (lines 554-557). -/
def x0DtypeMsg : String := "If x0 is supplied, its dtype must match b."

/-- Message of the Krylov-size range rejection in `gmres` (lines 560-563). -/
def gmresNkvMsg : String := "num_krylov_vectors must be in 0 < num_krylov_vectors <= b.size."

/-- Message of the negative-`tol` rejection in `gmres` (line 565). -/
def tolMsg : String := "tol must be positive."

/-- Message of the negative-`atol` rejection in `gmres` (line 569). -/
def atolMsg : String := "atol must be positive."

/-- Message of the preconditioner rejection in `gmres` (line 572). -/
def mMsg : String := "M is not supported by the Jax backend."

/-- Message of the keyword-argument rejection in `gmres` (line 574). -/
def kwargsMsg : String := "A_kwargs is not supported by the Jax backend."

/-- The invocation of the cached Arnoldi iteration routine performed by
`JaxBackend.eigs` after validation and cache registration; the fields mirror
the arguments of the call on lines 334-336 of jax_backend.py, together with
the cached routine being invoked. -/
structure EigsCall where
  routine : AlgFun
  matvec : Wrapped
  args : List Int
  initial_state : Ten
  num_krylov_vecs : Int
  numeig : Int
  which : String
  tol : Rat
  maxiter : Int
deriving DecidableEq, Repr

/-- The invocation of the cached Lanczos iteration routine performed by
`JaxBackend.eigsh_lanczos`; the fields mirror the arguments of the call on
lines 443-444 of jax_backend.py (note that `tol` and `ndiag` are not passed
on), together with the cached routine being invoked. -/
structure LanczosCall where
  routine : AlgFun
  matvec : Wrapped
  args : List Int
  initial_state : Ten
  num_krylov_vecs : Int
  numeig : Int
  delta : Rat
  reorthogonalize : Bool
deriving DecidableEq, Repr

/-- The invocation of the cached gmres iteration routine performed by
`JaxBackend.gmres`; the fields mirror the arguments of the call on
lines 587-589 of jax_backend.py, together with the cached routine being
invoked. -/
structure GmresCall where
  routine : AlgFun
  matvec : Wrapped
  a_args : List Int
  b : Ten
  x0 : Ten
  tol : Rat
  atol : Rat
  num_krylov_vectors : Int
  maxiter : Int
deriving DecidableEq, Repr

/-- The four outputs `x, _, n_iter, converged` of the gmres iteration routine
(line 587); the discarded second output is the final residual norm. -/
structure GmresIterOut (β : Type) where
  x : β
  beta : Rat
  n_iter : Int
  converged : Bool
deriving DecidableEq, Repr

/-- Transcription of `JaxBackend.eigs` (jax_backend.py lines 312-336) up to,
and including, the construction of the invocation of the cached iteration
routine: argument validation in source order, then conditional insertion
into the two process-wide caches.  Returns the erroring exception or the
performed invocation, together with the caches after the call. -/
def eigsCore (s : Caches) (A : Nat) (args : Option (List Int))
    (initial_state : Option Ten) (shape : Option (List Nat))
    (dtype : Option Dtype) (num_krylov_vecs : Int) (numeig : Int) (tol : Rat)
    (which : String) (maxiter : Int) : Except PyErr EigsCall × Caches :=
  let args := args.getD []
  if which = "SI" ∨ which = "LI" ∨ which = "SM" ∨ which = "SR" then
    (Except.error (PyErr.valueError whichMsg), s)
  else if numeig > num_krylov_vecs then
    (Except.error (PyErr.valueError nkvMsg), s)
  else
    let st? : Except PyErr Ten :=
      match initial_state, shape, dtype with
      | some st, _, _ => Except.ok st
      | none, some sh, some dt => Except.ok (randn sh dt)
      | none, _, _ => Except.error (PyErr.valueError initMsg)
    match st? with
    | Except.error e => (Except.error e, s)
    | Except.ok st =>
      if st.isJax = false then
        (Except.error (PyErr.typeError typeMsg), s)
      else
        let w := (assocLookup s.matvecs A).getD (Wrapped.wrapJit A)
        let mats := if (assocLookup s.matvecs A).isNone then
            (A, Wrapped.wrapJit A) :: s.matvecs
          else s.matvecs
        let r := (assocLookup s.functions "imp_arnoldi").getD AlgFun.impArnoldi
        let funcs := if (assocLookup s.functions "imp_arnoldi").isNone then
            ("imp_arnoldi", AlgFun.impArnoldi) :: s.functions
          else s.functions
        (Except.ok ⟨r, w, args, st, num_krylov_vecs, numeig, which, tol, maxiter⟩,
          ⟨mats, funcs⟩)

/-- `JaxBackend.eigs`: performs `eigsCore` and, on success, applies the
cached iteration routine, whose behaviour is the parameter `impl`. -/
def eigs {ρ : Type} (impl : EigsCall → ρ) (s : Caches) (A : Nat)
    (args : Option (List Int)) (initial_state : Option Ten)
    (shape : Option (List Nat)) (dtype : Option Dtype) (num_krylov_vecs : Int)
    (numeig : Int) (tol : Rat) (which : String) (maxiter : Int) :
    Except PyErr ρ × Caches :=
  match eigsCore s A args initial_state shape dtype num_krylov_vecs numeig tol
      which maxiter with
  | (Except.error e, s') => (Except.error e, s')
  | (Except.ok call, s') => (Except.ok (impl call), s')

/-- Transcription of `JaxBackend.eigsh_lanczos` (jax_backend.py lines
419-444) up to, and including, the construction of the invocation of the
cached iteration routine. -/
def lanczosCore (s : Caches) (A : Nat) (args : Option (List Int))
    (initial_state : Option Ten) (shape : Option (List Nat))
    (dtype : Option Dtype) (num_krylov_vecs : Int) (numeig : Int) (tol : Rat)
    (delta : Rat) (ndiag : Int) (reorthogonalize : Bool) :
    Except PyErr LanczosCall × Caches :=
  let args := args.getD []
  if num_krylov_vecs < numeig then
    (Except.error (PyErr.valueError nkvMsg), s)
  else if numeig > 1 ∧ reorthogonalize = false then
    (Except.error (PyErr.valueError reorthMsg), s)
  else
    let st? : Except PyErr Ten :=
      match initial_state, shape, dtype with
      | some st, _, _ => Except.ok st
      | none, some sh, some dt => Except.ok (randn sh dt)
      | none, _, _ => Except.error (PyErr.valueError initMsg)
    match st? with
    | Except.error e => (Except.error e, s)
    | Except.ok st =>
      if st.isJax = false then
        (Except.error (PyErr.typeError typeMsg), s)
      else
        let w := (assocLookup s.matvecs A).getD (Wrapped.wrapPlain A)
        let mats := if (assocLookup s.matvecs A).isNone then
            (A, Wrapped.wrapPlain A) :: s.matvecs
          else s.matvecs
        let r := (assocLookup s.functions "eigsh_lanczos").getD AlgFun.eigshLanczos
        let funcs := if (assocLookup s.functions "eigsh_lanczos").isNone then
            ("eigsh_lanczos", AlgFun.eigshLanczos) :: s.functions
          else s.functions
        (Except.ok ⟨r, w, args, st, num_krylov_vecs, numeig, delta, reorthogonalize⟩,
          ⟨mats, funcs⟩)

/-- `JaxBackend.eigsh_lanczos`: performs `lanczosCore` and, on success,
applies the cached iteration routine, whose behaviour is `impl`. -/
def eigsh_lanczos {ρ : Type} (impl : LanczosCall → ρ) (s : Caches) (A : Nat)
    (args : Option (List Int)) (initial_state : Option Ten)
    (shape : Option (List Nat)) (dtype : Option Dtype) (num_krylov_vecs : Int)
    (numeig : Int) (tol : Rat) (delta : Rat) (ndiag : Int)
    (reorthogonalize : Bool) : Except PyErr ρ × Caches :=
  match lanczosCore s A args initial_state shape dtype num_krylov_vecs numeig
      tol delta ndiag reorthogonalize with
  | (Except.error e, s') => (Except.error e, s')
  | (Except.ok call, s') => (Except.ok (impl call), s')

/-- Transcription of `JaxBackend.gmres` (jax_backend.py lines 550-589) up to,
and including, the construction of the invocation of the cached iteration
routine: the ValueError checks, then the NotImplementedError checks, the
defaulting of `A_args`, `x0`, `atol` and `num_krylov_vectors`, and the
conditional cache insertions, all in source order. -/
def gmresCore (s : Caches) (A_mv : Nat) (b : Ten) (A_args : Option (List Int))
    (A_kwargs : Option (List (String × Int))) (x0 : Option Ten) (tol : Rat)
    (atol : Option Rat) (num_krylov_vectors : Option Int) (maxiter : Int)
    (M : Option Nat) : Except PyErr GmresCall × Caches :=
  if x0.elim false (fun t => decide (t.shape ≠ b.shape)) then
    (Except.error (PyErr.valueError x0ShapeMsg), s)
  else if x0.elim false (fun t => decide (t.dtype ≠ b.dtype)) then
    (Except.error (PyErr.valueError x0DtypeMsg), s)
  else
    let num_krylov_vectors := num_krylov_vectors.getD (b.size : Int)
    if num_krylov_vectors ≤ 0 ∨ num_krylov_vectors > (b.size : Int) then
      (Except.error (PyErr.valueError gmresNkvMsg), s)
    else if tol < 0 then
      (Except.error (PyErr.valueError tolMsg), s)
    else
      let atol := atol.getD tol
      if atol < 0 then
        (Except.error (PyErr.valueError atolMsg), s)
      else if M.isSome then
        (Except.error (PyErr.notImplementedError mMsg), s)
      else if A_kwargs.isSome then
        (Except.error (PyErr.notImplementedError kwargsMsg), s)
      else
        let a_args := A_args.getD []
        let x0v := x0.getD (zeros b.shape b.dtype)
        let w := (assocLookup s.matvecs A_mv).getD (Wrapped.wrapPlain A_mv)
        let mats := if (assocLookup s.matvecs A_mv).isNone then
            (A_mv, Wrapped.wrapPlain A_mv) :: s.matvecs
          else s.matvecs
        let r := (assocLookup s.functions "gmres_f").getD AlgFun.gmresF
        let funcs := if (assocLookup s.functions "gmres_f").isNone then
            ("gmres_f", AlgFun.gmresF) :: s.functions
          else s.functions
        (Except.ok ⟨r, w, a_args, b, x0v, tol, atol, num_krylov_vectors, maxiter⟩,
          ⟨mats, funcs⟩)

/-- `JaxBackend.gmres`: performs `gmresCore` and, on success, applies the
cached iteration routine `gmres_f` and post-processes its four outputs into
the returned `(x, info)` pair (jax_backend.py lines 587-594): `info` is `0`
when the iteration reports convergence and `n_iter` otherwise. -/
def gmres {β : Type} (gmres_f : GmresCall → GmresIterOut β) (s : Caches)
    (A_mv : Nat) (b : Ten) (A_args : Option (List Int))
    (A_kwargs : Option (List (String × Int))) (x0 : Option Ten) (tol : Rat)
    (atol : Option Rat) (num_krylov_vectors : Option Int) (maxiter : Int)
    (M : Option Nat) : Except PyErr (β × Int) × Caches :=
  match gmresCore s A_mv b A_args A_kwargs x0 tol atol num_krylov_vectors
      maxiter M with
  | (Except.error e, s') => (Except.error e, s')
  | (Except.ok call, s') =>
    let out := gmres_f call
    let info : Int := if out.converged then 0 else out.n_iter
    (Except.ok (out.x, info), s')

/-- `Except` outcome is a `ValueError`. -/
def isValueError {ρ : Type} : Except PyErr ρ → Bool
  | Except.error (PyErr.valueError _) => true
  | _ => false

/-- `Except` outcome is a `NotImplementedError`. -/
def isNotImplemented {ρ : Type} : Except PyErr ρ → Bool
  | Except.error (PyErr.notImplementedError _) => true
  | _ => false

/-- Modelled from the spec: the gmres iteration routine
(`jitted_functions.gmres_wrapper`, whose body is not under src/) reports the
number of restart cycles it consumed, which is nonzero whenever it did not
converge ("nonzero signals non-convergence"). -/
def GmresIterSpec {β : Type} (out : GmresIterOut β) : Prop :=
  out.converged = false → 1 ≤ out.n_iter

/-- A cache step that only ever inserts a binding at a key that is not yet
present: the map is unchanged, or grows by one fresh binding; consequently
every binding present before is present, unchanged, after. -/
def InsertOnlyStep {α β : Type} [DecidableEq α]
    (old new : List (α × β)) : Prop :=
  (new = old ∨ ∃ a v, assocLookup old a = none ∧ new = (a, v) :: old) ∧
  ∀ k w, assocLookup old k = some w → assocLookup new k = some w

section Helpers

variable {α β : Type} [DecidableEq α]

theorem assocLookup_fresh_cons {c : List (α × β)} {a k : α} {v w : β}
    (hf : assocLookup c a = none) (hk : assocLookup c k = some w) :
    assocLookup ((a, v) :: c) k = some w := by
  have hne : a ≠ k := by
    intro h
    subst h
    rw [hf] at hk
    exact Option.noConfusion hk
  simp [assocLookup, hne, hk]

theorem insertOnlyStep_refl (c : List (α × β)) : InsertOnlyStep c c :=
  ⟨Or.inl rfl, fun _ _ h => h⟩

theorem insertOnlyStep_fresh {c : List (α × β)} {a : α} (v : β)
    (hf : assocLookup c a = none) : InsertOnlyStep c ((a, v) :: c) :=
  ⟨Or.inr ⟨a, v, hf, rfl⟩, fun _ _ h => assocLookup_fresh_cons hf h⟩

theorem insertOnlyStep_ite (c : List (α × β)) (a : α) (v : β) :
    InsertOnlyStep c (if (assocLookup c a).isNone then (a, v) :: c else c) := by
  cases h : assocLookup c a with
  | none => simpa [h] using insertOnlyStep_fresh v h
  | some w => simpa [h] using insertOnlyStep_refl c

theorem insertOnlyStep_freshB {c : List (α × β)} {a : α} (v : β)
    (hf : (assocLookup c a).isNone = true) : InsertOnlyStep c ((a, v) :: c) :=
  insertOnlyStep_fresh v (Option.isNone_iff_eq_none.mp hf)

end Helpers

/-- Shape of a successful `eigsCore` run: with a supplied jax initial state,
a `which` outside the rejected set and `numeig ≤ num_krylov_vecs`, the call
record uses the cached matvec and routine (inserting them when absent). -/
theorem eigsCore_ok (s : Caches) (A : Nat) (args : Option (List Int))
    (st : Ten) (shape : Option (List Nat)) (dtype : Option Dtype)
    (num_krylov_vecs numeig : Int) (tol : Rat) (which : String) (maxiter : Int)
    (hw : ¬(which = "SI" ∨ which = "LI" ∨ which = "SM" ∨ which = "SR"))
    (hn : ¬numeig > num_krylov_vecs) (hjax : st.isJax = true) :
    eigsCore s A args (some st) shape dtype num_krylov_vecs numeig tol which
        maxiter =
      (Except.ok
        ⟨(assocLookup s.functions "imp_arnoldi").getD AlgFun.impArnoldi,
         (assocLookup s.matvecs A).getD (Wrapped.wrapJit A),
         args.getD [], st, num_krylov_vecs, numeig, which, tol, maxiter⟩,
       ⟨if (assocLookup s.matvecs A).isNone then
           (A, Wrapped.wrapJit A) :: s.matvecs
         else s.matvecs,
        if (assocLookup s.functions "imp_arnoldi").isNone then
           ("imp_arnoldi", AlgFun.impArnoldi) :: s.functions
         else s.functions⟩) := by
  unfold eigsCore
  simp [hw, hn, hjax]

/-- Shape of a successful `lanczosCore` run. -/
theorem lanczosCore_ok (s : Caches) (A : Nat) (args : Option (List Int))
    (st : Ten) (shape : Option (List Nat)) (dtype : Option Dtype)
    (num_krylov_vecs numeig : Int) (tol delta : Rat) (ndiag : Int)
    (reorthogonalize : Bool)
    (hn : ¬num_krylov_vecs < numeig)
    (hr : ¬(numeig > 1 ∧ reorthogonalize = false)) (hjax : st.isJax = true) :
    lanczosCore s A args (some st) shape dtype num_krylov_vecs numeig tol
        delta ndiag reorthogonalize =
      (Except.ok
        ⟨(assocLookup s.functions "eigsh_lanczos").getD AlgFun.eigshLanczos,
         (assocLookup s.matvecs A).getD (Wrapped.wrapPlain A),
         args.getD [], st, num_krylov_vecs, numeig, delta, reorthogonalize⟩,
       ⟨if (assocLookup s.matvecs A).isNone then
           (A, Wrapped.wrapPlain A) :: s.matvecs
         else s.matvecs,
        if (assocLookup s.functions "eigsh_lanczos").isNone then
           ("eigsh_lanczos", AlgFun.eigshLanczos) :: s.functions
         else s.functions⟩) := by
  unfold lanczosCore
  simp [hn, hr, hjax]

/-- Shape of a successful `gmresCore` run. -/
theorem gmresCore_ok (s : Caches) (A_mv : Nat) (b : Ten)
    (A_args : Option (List Int)) (x0 : Option Ten) (tol : Rat)
    (atol : Option Rat) (num_krylov_vectors : Option Int) (maxiter : Int)
    (hx0s : ∀ t, x0 = some t → t.shape = b.shape)
    (hx0d : ∀ t, x0 = some t → t.dtype = b.dtype)
    (hrange : ¬(num_krylov_vectors.getD (b.size : Int) ≤ 0 ∨
      num_krylov_vectors.getD (b.size : Int) > (b.size : Int)))
    (htol : ¬tol < 0) (hatol : ¬atol.getD tol < 0) :
    gmresCore s A_mv b A_args none x0 tol atol num_krylov_vectors maxiter
        none =
      (Except.ok
        ⟨(assocLookup s.functions "gmres_f").getD AlgFun.gmresF,
         (assocLookup s.matvecs A_mv).getD (Wrapped.wrapPlain A_mv),
         A_args.getD [], b, x0.getD (zeros b.shape b.dtype), tol,
         atol.getD tol, num_krylov_vectors.getD (b.size : Int), maxiter⟩,
       ⟨if (assocLookup s.matvecs A_mv).isNone then
           (A_mv, Wrapped.wrapPlain A_mv) :: s.matvecs
         else s.matvecs,
        if (assocLookup s.functions "gmres_f").isNone then
           ("gmres_f", AlgFun.gmresF) :: s.functions
         else s.functions⟩) := by
  unfold gmresCore
  cases x0 with
  | none => simp [hrange, htol, hatol]
  | some t => simp [hx0s t rfl, hx0d t rfl, hrange, htol, hatol]

/-- On an erroring run, `eigsCore` leaves the caches exactly as found. -/
theorem eigsCore_error_caches (s : Caches) (A : Nat) (args : Option (List Int))
    (initial_state : Option Ten) (shape : Option (List Nat))
    (dtype : Option Dtype) (num_krylov_vecs numeig : Int) (tol : Rat)
    (which : String) (maxiter : Int) (e : PyErr)
    (h : (eigsCore s A args initial_state shape dtype num_krylov_vecs numeig
      tol which maxiter).1 = Except.error e) :
    eigsCore s A args initial_state shape dtype num_krylov_vecs numeig tol
      which maxiter = (Except.error e, s) := by
  unfold eigsCore at h ⊢
  cases initial_state with
  | some st =>
    by_cases hj : st.isJax = true <;>
      split_ifs at h ⊢ <;> simp_all
  | none =>
    cases shape with
    | none => split_ifs at h ⊢ <;> simp_all
    | some sh =>
      cases dtype with
      | none => split_ifs at h ⊢ <;> simp_all
      | some dt => split_ifs at h ⊢ <;> simp_all [randn]

/-- On an erroring run, `lanczosCore` leaves the caches exactly as found. -/
theorem lanczosCore_error_caches (s : Caches) (A : Nat)
    (args : Option (List Int)) (initial_state : Option Ten)
    (shape : Option (List Nat)) (dtype : Option Dtype)
    (num_krylov_vecs numeig : Int) (tol delta : Rat) (ndiag : Int)
    (reorthogonalize : Bool) (e : PyErr)
    (h : (lanczosCore s A args initial_state shape dtype num_krylov_vecs
      numeig tol delta ndiag reorthogonalize).1 = Except.error e) :
    lanczosCore s A args initial_state shape dtype num_krylov_vecs numeig tol
      delta ndiag reorthogonalize = (Except.error e, s) := by
  unfold lanczosCore at h ⊢
  cases initial_state with
  | some st =>
    by_cases hj : st.isJax = true <;>
      split_ifs at h ⊢ <;> simp_all
  | none =>
    cases shape with
    | none => split_ifs at h ⊢ <;> simp_all
    | some sh =>
      cases dtype with
      | none => split_ifs at h ⊢ <;> simp_all
      | some dt => split_ifs at h ⊢ <;> simp_all [randn]

/-- On an erroring run, `gmresCore` leaves the caches exactly as found. -/
theorem gmresCore_error_caches (s : Caches) (A_mv : Nat) (b : Ten)
    (A_args : Option (List Int)) (A_kwargs : Option (List (String × Int)))
    (x0 : Option Ten) (tol : Rat) (atol : Option Rat)
    (num_krylov_vectors : Option Int) (maxiter : Int) (M : Option Nat)
    (e : PyErr)
    (h : (gmresCore s A_mv b A_args A_kwargs x0 tol atol num_krylov_vectors
      maxiter M).1 = Except.error e) :
    gmresCore s A_mv b A_args A_kwargs x0 tol atol num_krylov_vectors maxiter
      M = (Except.error e, s) := by
  unfold gmresCore at h ⊢
  dsimp only at h ⊢
  split_ifs at h <;> split_ifs at h ⊢ <;>
    exact congrArg (fun z => (z, s)) h

/-- Both caches evolve by fresh insertion only, on every `eigsCore` run. -/
theorem eigsCore_insertOnly (s : Caches) (A : Nat) (args : Option (List Int))
    (initial_state : Option Ten) (shape : Option (List Nat))
    (dtype : Option Dtype) (num_krylov_vecs numeig : Int) (tol : Rat)
    (which : String) (maxiter : Int) :
    InsertOnlyStep s.matvecs
        (eigsCore s A args initial_state shape dtype num_krylov_vecs numeig
          tol which maxiter).2.matvecs ∧
      InsertOnlyStep s.functions
        (eigsCore s A args initial_state shape dtype num_krylov_vecs numeig
          tol which maxiter).2.functions := by
  unfold eigsCore
  cases initial_state with
  | some st =>
    dsimp only
    split_ifs <;> refine ⟨?_, ?_⟩ <;> dsimp only <;>
      first
        | exact insertOnlyStep_refl _
        | (apply insertOnlyStep_freshB; assumption)
  | none =>
    cases shape with
    | none =>
      dsimp only
      split_ifs <;> exact ⟨insertOnlyStep_refl _, insertOnlyStep_refl _⟩
    | some sh =>
      cases dtype with
      | none =>
        dsimp only
        split_ifs <;> exact ⟨insertOnlyStep_refl _, insertOnlyStep_refl _⟩
      | some dt =>
        dsimp only
        split_ifs <;> refine ⟨?_, ?_⟩ <;> dsimp only <;>
          first
            | exact insertOnlyStep_refl _
            | (apply insertOnlyStep_freshB; assumption)

/-- Both caches evolve by fresh insertion only, on every `lanczosCore` run. -/
theorem lanczosCore_insertOnly (s : Caches) (A : Nat)
    (args : Option (List Int)) (initial_state : Option Ten)
    (shape : Option (List Nat)) (dtype : Option Dtype)
    (num_krylov_vecs numeig : Int) (tol delta : Rat) (ndiag : Int)
    (reorthogonalize : Bool) :
    InsertOnlyStep s.matvecs
        (lanczosCore s A args initial_state shape dtype num_krylov_vecs
          numeig tol delta ndiag reorthogonalize).2.matvecs ∧
      InsertOnlyStep s.functions
        (lanczosCore s A args initial_state shape dtype num_krylov_vecs
          numeig tol delta ndiag reorthogonalize).2.functions := by
  unfold lanczosCore
  cases initial_state with
  | some st =>
    dsimp only
    split_ifs <;> refine ⟨?_, ?_⟩ <;> dsimp only <;>
      first
        | exact insertOnlyStep_refl _
        | (apply insertOnlyStep_freshB; assumption)
  | none =>
    cases shape with
    | none =>
      dsimp only
      split_ifs <;> exact ⟨insertOnlyStep_refl _, insertOnlyStep_refl _⟩
    | some sh =>
      cases dtype with
      | none =>
        dsimp only
        split_ifs <;> exact ⟨insertOnlyStep_refl _, insertOnlyStep_refl _⟩
      | some dt =>
        dsimp only
        split_ifs <;> refine ⟨?_, ?_⟩ <;> dsimp only <;>
          first
            | exact insertOnlyStep_refl _
            | (apply insertOnlyStep_freshB; assumption)

/-- Both caches evolve by fresh insertion only, on every `gmresCore` run. -/
theorem gmresCore_insertOnly (s : Caches) (A_mv : Nat) (b : Ten)
    (A_args : Option (List Int)) (A_kwargs : Option (List (String × Int)))
    (x0 : Option Ten) (tol : Rat) (atol : Option Rat)
    (num_krylov_vectors : Option Int) (maxiter : Int) (M : Option Nat) :
    InsertOnlyStep s.matvecs
        (gmresCore s A_mv b A_args A_kwargs x0 tol atol num_krylov_vectors
          maxiter M).2.matvecs ∧
      InsertOnlyStep s.functions
        (gmresCore s A_mv b A_args A_kwargs x0 tol atol num_krylov_vectors
          maxiter M).2.functions := by
  unfold gmresCore
  dsimp only
  split_ifs <;> refine ⟨?_, ?_⟩ <;> dsimp only <;>
    first
      | exact insertOnlyStep_refl _
      | (apply insertOnlyStep_freshB; assumption)

/-- `eigs` errors exactly when its core errors. -/
theorem eigs_fst_error_iff {ρ : Type} (impl : EigsCall → ρ) (s : Caches)
    (A : Nat) (args : Option (List Int)) (initial_state : Option Ten)
    (shape : Option (List Nat)) (dtype : Option Dtype)
    (num_krylov_vecs numeig : Int) (tol : Rat) (which : String) (maxiter : Int)
    (e : PyErr) :
    (eigs impl s A args initial_state shape dtype num_krylov_vecs numeig tol
        which maxiter).1 = Except.error e ↔
      (eigsCore s A args initial_state shape dtype num_krylov_vecs numeig tol
        which maxiter).1 = Except.error e := by
  unfold eigs
  rcases h : eigsCore s A args initial_state shape dtype num_krylov_vecs
    numeig tol which maxiter with ⟨fst, snd⟩
  cases fst <;> simp

/-- `eigs` leaves the caches exactly as its core does. -/
theorem eigs_snd_eq {ρ : Type} (impl : EigsCall → ρ) (s : Caches) (A : Nat)
    (args : Option (List Int)) (initial_state : Option Ten)
    (shape : Option (List Nat)) (dtype : Option Dtype)
    (num_krylov_vecs numeig : Int) (tol : Rat) (which : String)
    (maxiter : Int) :
    (eigs impl s A args initial_state shape dtype num_krylov_vecs numeig tol
        which maxiter).2 =
      (eigsCore s A args initial_state shape dtype num_krylov_vecs numeig tol
        which maxiter).2 := by
  unfold eigs
  rcases h : eigsCore s A args initial_state shape dtype num_krylov_vecs
    numeig tol which maxiter with ⟨fst, snd⟩
  cases fst <;> rfl

/-- `eigsh_lanczos` errors exactly when its core errors. -/
theorem eigsh_lanczos_fst_error_iff {ρ : Type} (impl : LanczosCall → ρ)
    (s : Caches) (A : Nat) (args : Option (List Int))
    (initial_state : Option Ten) (shape : Option (List Nat))
    (dtype : Option Dtype) (num_krylov_vecs numeig : Int) (tol delta : Rat)
    (ndiag : Int) (reorthogonalize : Bool) (e : PyErr) :
    (eigsh_lanczos impl s A args initial_state shape dtype num_krylov_vecs
        numeig tol delta ndiag reorthogonalize).1 = Except.error e ↔
      (lanczosCore s A args initial_state shape dtype num_krylov_vecs numeig
        tol delta ndiag reorthogonalize).1 = Except.error e := by
  unfold eigsh_lanczos
  rcases h : lanczosCore s A args initial_state shape dtype num_krylov_vecs
    numeig tol delta ndiag reorthogonalize with ⟨fst, snd⟩
  cases fst <;> simp

/-- `eigsh_lanczos` leaves the caches exactly as its core does. -/
theorem eigsh_lanczos_snd_eq {ρ : Type} (impl : LanczosCall → ρ) (s : Caches)
    (A : Nat) (args : Option (List Int)) (initial_state : Option Ten)
    (shape : Option (List Nat)) (dtype : Option Dtype)
    (num_krylov_vecs numeig : Int) (tol delta : Rat) (ndiag : Int)
    (reorthogonalize : Bool) :
    (eigsh_lanczos impl s A args initial_state shape dtype num_krylov_vecs
        numeig tol delta ndiag reorthogonalize).2 =
      (lanczosCore s A args initial_state shape dtype num_krylov_vecs numeig
        tol delta ndiag reorthogonalize).2 := by
  unfold eigsh_lanczos
  rcases h : lanczosCore s A args initial_state shape dtype num_krylov_vecs
    numeig tol delta ndiag reorthogonalize with ⟨fst, snd⟩
  cases fst <;> rfl

/-- `gmres` errors exactly when its core errors. -/
theorem gmres_fst_error_iff {β : Type} (gmres_f : GmresCall → GmresIterOut β)
    (s : Caches) (A_mv : Nat) (b : Ten) (A_args : Option (List Int))
    (A_kwargs : Option (List (String × Int))) (x0 : Option Ten) (tol : Rat)
    (atol : Option Rat) (num_krylov_vectors : Option Int) (maxiter : Int)
    (M : Option Nat) (e : PyErr) :
    (gmres gmres_f s A_mv b A_args A_kwargs x0 tol atol num_krylov_vectors
        maxiter M).1 = Except.error e ↔
      (gmresCore s A_mv b A_args A_kwargs x0 tol atol num_krylov_vectors
        maxiter M).1 = Except.error e := by
  unfold gmres
  rcases h : gmresCore s A_mv b A_args A_kwargs x0 tol atol
    num_krylov_vectors maxiter M with ⟨fst, snd⟩
  cases fst <;> simp

/-- `gmres` leaves the caches exactly as its core does. -/
theorem gmres_snd_eq {β : Type} (gmres_f : GmresCall → GmresIterOut β)
    (s : Caches) (A_mv : Nat) (b : Ten) (A_args : Option (List Int))
    (A_kwargs : Option (List (String × Int))) (x0 : Option Ten) (tol : Rat)
    (atol : Option Rat) (num_krylov_vectors : Option Int) (maxiter : Int)
    (M : Option Nat) :
    (gmres gmres_f s A_mv b A_args A_kwargs x0 tol atol num_krylov_vectors
        maxiter M).2 =
      (gmresCore s A_mv b A_args A_kwargs x0 tol atol num_krylov_vectors
        maxiter M).2 := by
  unfold gmres
  rcases h : gmresCore s A_mv b A_args A_kwargs x0 tol atol
    num_krylov_vectors maxiter M with ⟨fst, snd⟩
  cases fst <;> rfl

/-- A succeeding `eigs` run applies the cached iteration routine to the
cached operator and returns the updated caches. -/
theorem eigs_ok_run {ρ : Type} (impl : EigsCall → ρ) (s : Caches) (A : Nat)
    (args : Option (List Int)) (st : Ten) (shape : Option (List Nat))
    (dtype : Option Dtype) (num_krylov_vecs numeig : Int) (tol : Rat)
    (which : String) (maxiter : Int)
    (hw : ¬(which = "SI" ∨ which = "LI" ∨ which = "SM" ∨ which = "SR"))
    (hn : ¬numeig > num_krylov_vecs) (hjax : st.isJax = true) :
    eigs impl s A args (some st) shape dtype num_krylov_vecs numeig tol which
        maxiter =
      (Except.ok (impl
        ⟨(assocLookup s.functions "imp_arnoldi").getD AlgFun.impArnoldi,
         (assocLookup s.matvecs A).getD (Wrapped.wrapJit A),
         args.getD [], st, num_krylov_vecs, numeig, which, tol, maxiter⟩),
       ⟨if (assocLookup s.matvecs A).isNone then
           (A, Wrapped.wrapJit A) :: s.matvecs
         else s.matvecs,
        if (assocLookup s.functions "imp_arnoldi").isNone then
           ("imp_arnoldi", AlgFun.impArnoldi) :: s.functions
         else s.functions⟩) := by
  unfold eigs
  rw [eigsCore_ok s A args st shape dtype num_krylov_vecs numeig tol which
    maxiter hw hn hjax]

/-- A succeeding `eigsh_lanczos` run applies the cached iteration routine to
the cached operator and returns the updated caches. -/
theorem eigsh_lanczos_ok_run {ρ : Type} (impl : LanczosCall → ρ) (s : Caches)
    (A : Nat) (args : Option (List Int)) (st : Ten)
    (shape : Option (List Nat)) (dtype : Option Dtype)
    (num_krylov_vecs numeig : Int) (tol delta : Rat) (ndiag : Int)
    (reorthogonalize : Bool) (hn : ¬num_krylov_vecs < numeig)
    (hr : ¬(numeig > 1 ∧ reorthogonalize = false)) (hjax : st.isJax = true) :
    eigsh_lanczos impl s A args (some st) shape dtype num_krylov_vecs numeig
        tol delta ndiag reorthogonalize =
      (Except.ok (impl
        ⟨(assocLookup s.functions "eigsh_lanczos").getD AlgFun.eigshLanczos,
         (assocLookup s.matvecs A).getD (Wrapped.wrapPlain A),
         args.getD [], st, num_krylov_vecs, numeig, delta, reorthogonalize⟩),
       ⟨if (assocLookup s.matvecs A).isNone then
           (A, Wrapped.wrapPlain A) :: s.matvecs
         else s.matvecs,
        if (assocLookup s.functions "eigsh_lanczos").isNone then
           ("eigsh_lanczos", AlgFun.eigshLanczos) :: s.functions
         else s.functions⟩) := by
  unfold eigsh_lanczos
  rw [lanczosCore_ok s A args st shape dtype num_krylov_vecs numeig tol delta
    ndiag reorthogonalize hn hr hjax]

/-- A succeeding `gmres` run applies the cached iteration routine to the
cached operator, post-processes its output into `(x, info)`, and returns the
updated caches. -/
theorem gmres_ok_run {β : Type} (gmres_f : GmresCall → GmresIterOut β)
    (s : Caches) (A_mv : Nat) (b : Ten) (A_args : Option (List Int))
    (x0 : Option Ten) (tol : Rat) (atol : Option Rat)
    (num_krylov_vectors : Option Int) (maxiter : Int)
    (hx0s : ∀ t, x0 = some t → t.shape = b.shape)
    (hx0d : ∀ t, x0 = some t → t.dtype = b.dtype)
    (hrange : ¬(num_krylov_vectors.getD (b.size : Int) ≤ 0 ∨
      num_krylov_vectors.getD (b.size : Int) > (b.size : Int)))
    (htol : ¬tol < 0) (hatol : ¬atol.getD tol < 0) :
    gmres gmres_f s A_mv b A_args none x0 tol atol num_krylov_vectors maxiter
        none =
      (Except.ok
        ((gmres_f
          ⟨(assocLookup s.functions "gmres_f").getD AlgFun.gmresF,
           (assocLookup s.matvecs A_mv).getD (Wrapped.wrapPlain A_mv),
           A_args.getD [], b, x0.getD (zeros b.shape b.dtype), tol,
           atol.getD tol, num_krylov_vectors.getD (b.size : Int),
           maxiter⟩).x,
         if (gmres_f
          ⟨(assocLookup s.functions "gmres_f").getD AlgFun.gmresF,
           (assocLookup s.matvecs A_mv).getD (Wrapped.wrapPlain A_mv),
           A_args.getD [], b, x0.getD (zeros b.shape b.dtype), tol,
           atol.getD tol, num_krylov_vectors.getD (b.size : Int),
           maxiter⟩).converged then 0
         else (gmres_f
          ⟨(assocLookup s.functions "gmres_f").getD AlgFun.gmresF,
           (assocLookup s.matvecs A_mv).getD (Wrapped.wrapPlain A_mv),
           A_args.getD [], b, x0.getD (zeros b.shape b.dtype), tol,
           atol.getD tol, num_krylov_vectors.getD (b.size : Int),
           maxiter⟩).n_iter),
       ⟨if (assocLookup s.matvecs A_mv).isNone then
           (A_mv, Wrapped.wrapPlain A_mv) :: s.matvecs
         else s.matvecs,
        if (assocLookup s.functions "gmres_f").isNone then
           ("gmres_f", AlgFun.gmresF) :: s.functions
         else s.functions⟩) := by
  unfold gmres
  rw [gmresCore_ok s A_mv b A_args x0 tol atol num_krylov_vectors maxiter
    hx0s hx0d hrange htol hatol]

/-- An unsupported `which` makes `eigsCore` fail first, leaving the caches. -/
theorem eigsCore_whichFire (s : Caches) (A : Nat) (args : Option (List Int))
    (initial_state : Option Ten) (shape : Option (List Nat))
    (dtype : Option Dtype) (num_krylov_vecs numeig : Int) (tol : Rat)
    (which : String) (maxiter : Int)
    (hf : which = "SI" ∨ which = "LI" ∨ which = "SM" ∨ which = "SR") :
    eigsCore s A args initial_state shape dtype num_krylov_vecs numeig tol
      which maxiter = (Except.error (PyErr.valueError whichMsg), s) := by
  simp [eigsCore, hf]

/-- With a supported `which` and `numeig > num_krylov_vecs`, `eigsCore` fails
at the Krylov-size check, leaving the caches. -/
theorem eigsCore_nkvFire (s : Caches) (A : Nat) (args : Option (List Int))
    (initial_state : Option Ten) (shape : Option (List Nat))
    (dtype : Option Dtype) (num_krylov_vecs numeig : Int) (tol : Rat)
    (which : String) (maxiter : Int)
    (hw : ¬(which = "SI" ∨ which = "LI" ∨ which = "SM" ∨ which = "SR"))
    (hn : numeig > num_krylov_vecs) :
    eigsCore s A args initial_state shape dtype num_krylov_vecs numeig tol
      which maxiter = (Except.error (PyErr.valueError nkvMsg), s) := by
  simp [eigsCore, hw, hn]

/-- With `num_krylov_vecs < numeig`, `lanczosCore` fails at its first check,
leaving the caches. -/
theorem lanczosCore_nkvFire (s : Caches) (A : Nat) (args : Option (List Int))
    (initial_state : Option Ten) (shape : Option (List Nat))
    (dtype : Option Dtype) (num_krylov_vecs numeig : Int) (tol delta : Rat)
    (ndiag : Int) (reorthogonalize : Bool) (hn : num_krylov_vecs < numeig) :
    lanczosCore s A args initial_state shape dtype num_krylov_vecs numeig tol
      delta ndiag reorthogonalize = (Except.error (PyErr.valueError nkvMsg), s) := by
  simp [lanczosCore, hn]

/-- With `numeig > 1` and `reorthogonalize = False` (and the Krylov-size
check passing), `lanczosCore` fails at the reorthogonalization check. -/
theorem lanczosCore_reorthFire (s : Caches) (A : Nat)
    (args : Option (List Int)) (initial_state : Option Ten)
    (shape : Option (List Nat)) (dtype : Option Dtype)
    (num_krylov_vecs numeig : Int) (tol delta : Rat) (ndiag : Int)
    (reorthogonalize : Bool) (hn : ¬num_krylov_vecs < numeig)
    (h1 : numeig > 1) (h2 : reorthogonalize = false) :
    lanczosCore s A args initial_state shape dtype num_krylov_vecs numeig tol
      delta ndiag reorthogonalize =
      (Except.error (PyErr.valueError reorthMsg), s) := by
  simp [lanczosCore, hn, h1, h2]

/-- `eigsCore` raises the unsupported-`which` ValueError exactly for the four
rejected criteria, whatever the remaining arguments. -/
theorem eigsCore_whichMsg_iff (s : Caches) (A : Nat)
    (args : Option (List Int)) (initial_state : Option Ten)
    (shape : Option (List Nat)) (dtype : Option Dtype)
    (num_krylov_vecs numeig : Int) (tol : Rat) (which : String)
    (maxiter : Int) :
    (eigsCore s A args initial_state shape dtype num_krylov_vecs numeig tol
        which maxiter).1 = Except.error (PyErr.valueError whichMsg) ↔
      (which = "SI" ∨ which = "LI" ∨ which = "SM" ∨ which = "SR") := by
  unfold eigsCore
  cases initial_state with
  | some st =>
    dsimp only
    split_ifs <;> simp_all [whichMsg, nkvMsg, typeMsg]
  | none =>
    cases shape with
    | none =>
      dsimp only
      split_ifs <;> simp_all [whichMsg, nkvMsg, initMsg]
    | some sh =>
      cases dtype with
      | none =>
        dsimp only
        split_ifs <;> simp_all [whichMsg, nkvMsg, initMsg]
      | some dt =>
        dsimp only
        split_ifs <;> simp_all [whichMsg, nkvMsg, typeMsg, randn]

/-- `eigsCore` raises the Krylov-size ValueError exactly when `which` passes
and `numeig > num_krylov_vecs`, whatever the remaining arguments. -/
theorem eigsCore_nkvMsg_iff (s : Caches) (A : Nat) (args : Option (List Int))
    (initial_state : Option Ten) (shape : Option (List Nat))
    (dtype : Option Dtype) (num_krylov_vecs numeig : Int) (tol : Rat)
    (which : String) (maxiter : Int) :
    (eigsCore s A args initial_state shape dtype num_krylov_vecs numeig tol
        which maxiter).1 = Except.error (PyErr.valueError nkvMsg) ↔
      (¬(which = "SI" ∨ which = "LI" ∨ which = "SM" ∨ which = "SR") ∧
        numeig > num_krylov_vecs) := by
  unfold eigsCore
  cases initial_state with
  | some st =>
    dsimp only
    split_ifs <;> simp_all [whichMsg, nkvMsg, typeMsg]
  | none =>
    cases shape with
    | none =>
      dsimp only
      split_ifs <;> simp_all [whichMsg, nkvMsg, initMsg]
    | some sh =>
      cases dtype with
      | none =>
        dsimp only
        split_ifs <;> simp_all [whichMsg, nkvMsg, initMsg]
      | some dt =>
        dsimp only
        split_ifs <;> simp_all [whichMsg, nkvMsg, typeMsg, randn]

/-- `lanczosCore` raises the Krylov-size ValueError exactly when
`num_krylov_vecs < numeig`. -/
theorem lanczosCore_nkvMsg_iff (s : Caches) (A : Nat)
    (args : Option (List Int)) (initial_state : Option Ten)
    (shape : Option (List Nat)) (dtype : Option Dtype)
    (num_krylov_vecs numeig : Int) (tol delta : Rat) (ndiag : Int)
    (reorthogonalize : Bool) :
    (lanczosCore s A args initial_state shape dtype num_krylov_vecs numeig
        tol delta ndiag reorthogonalize).1 =
        Except.error (PyErr.valueError nkvMsg) ↔
      num_krylov_vecs < numeig := by
  unfold lanczosCore
  cases initial_state with
  | some st =>
    dsimp only
    split_ifs <;> simp_all [reorthMsg, nkvMsg, typeMsg]
  | none =>
    cases shape with
    | none =>
      dsimp only
      split_ifs <;> simp_all [reorthMsg, nkvMsg, initMsg]
    | some sh =>
      cases dtype with
      | none =>
        dsimp only
        split_ifs <;> simp_all [reorthMsg, nkvMsg, initMsg]
      | some dt =>
        dsimp only
        split_ifs <;> simp_all [reorthMsg, nkvMsg, typeMsg, randn]

/-- `lanczosCore` raises the reorthogonalization ValueError exactly when the
Krylov-size check passes, `numeig > 1` and `reorthogonalize = False`. -/
theorem lanczosCore_reorthMsg_iff (s : Caches) (A : Nat)
    (args : Option (List Int)) (initial_state : Option Ten)
    (shape : Option (List Nat)) (dtype : Option Dtype)
    (num_krylov_vecs numeig : Int) (tol delta : Rat) (ndiag : Int)
    (reorthogonalize : Bool) :
    (lanczosCore s A args initial_state shape dtype num_krylov_vecs numeig
        tol delta ndiag reorthogonalize).1 =
        Except.error (PyErr.valueError reorthMsg) ↔
      (¬num_krylov_vecs < numeig ∧ numeig > 1 ∧ reorthogonalize = false) := by
  unfold lanczosCore
  cases initial_state with
  | some st =>
    dsimp only
    split_ifs <;> simp_all [reorthMsg, nkvMsg, typeMsg]
  | none =>
    cases shape with
    | none =>
      dsimp only
      split_ifs <;> simp_all [reorthMsg, nkvMsg, initMsg]
    | some sh =>
      cases dtype with
      | none =>
        dsimp only
        split_ifs <;> simp_all [reorthMsg, nkvMsg, initMsg]
      | some dt =>
        dsimp only
        split_ifs <;> simp_all [reorthMsg, nkvMsg, typeMsg, randn]

set_option maxHeartbeats 1000000 in
/-- With a well-formed `x0`, `gmresCore` raises the Krylov-range ValueError
exactly when the (defaulted) `num_krylov_vectors` is out of range. -/
theorem gmresCore_nkvMsg_iff (s : Caches) (A_mv : Nat) (b : Ten)
    (A_args : Option (List Int)) (A_kwargs : Option (List (String × Int)))
    (x0 : Option Ten) (tol : Rat) (atol : Option Rat)
    (num_krylov_vectors : Option Int) (maxiter : Int) (M : Option Nat)
    (hx0s : ∀ t, x0 = some t → t.shape = b.shape)
    (hx0d : ∀ t, x0 = some t → t.dtype = b.dtype) :
    (gmresCore s A_mv b A_args A_kwargs x0 tol atol num_krylov_vectors
        maxiter M).1 = Except.error (PyErr.valueError gmresNkvMsg) ↔
      (num_krylov_vectors.getD (b.size : Int) ≤ 0 ∨
        num_krylov_vectors.getD (b.size : Int) > (b.size : Int)) := by
  unfold gmresCore
  cases x0 with
  | none =>
    dsimp only
    split_ifs <;>
      simp_all [gmresNkvMsg, tolMsg, atolMsg, mMsg, kwargsMsg]
  | some t =>
    have h1 := hx0s t rfl
    have h2 := hx0d t rfl
    dsimp only
    split_ifs <;>
      simp_all [gmresNkvMsg, tolMsg, atolMsg, mMsg, kwargsMsg,
        x0ShapeMsg, x0DtypeMsg]

/-- With all ValueError checks passing, a supplied preconditioner makes
`gmresCore` fail with the NotImplementedError for `M`. -/
theorem gmresCore_MFire (s : Caches) (A_mv : Nat) (b : Ten)
    (A_args : Option (List Int)) (A_kwargs : Option (List (String × Int)))
    (x0 : Option Ten) (tol : Rat) (atol : Option Rat)
    (num_krylov_vectors : Option Int) (maxiter : Int) (M : Option Nat)
    (hx0s : ∀ t, x0 = some t → t.shape = b.shape)
    (hx0d : ∀ t, x0 = some t → t.dtype = b.dtype)
    (hrange : ¬(num_krylov_vectors.getD (b.size : Int) ≤ 0 ∨
      num_krylov_vectors.getD (b.size : Int) > (b.size : Int)))
    (htol : ¬tol < 0) (hatol : ¬atol.getD tol < 0) (hM : M.isSome) :
    gmresCore s A_mv b A_args A_kwargs x0 tol atol num_krylov_vectors maxiter
      M = (Except.error (PyErr.notImplementedError mMsg), s) := by
  unfold gmresCore
  cases x0 with
  | none => simp [hrange, htol, hatol, hM]
  | some t => simp [hx0s t rfl, hx0d t rfl, hrange, htol, hatol, hM]

/-- With all ValueError checks passing and no preconditioner, supplied
keyword arguments make `gmresCore` fail with their NotImplementedError. -/
theorem gmresCore_kwargsFire (s : Caches) (A_mv : Nat) (b : Ten)
    (A_args : Option (List Int)) (A_kwargs : Option (List (String × Int)))
    (x0 : Option Ten) (tol : Rat) (atol : Option Rat)
    (num_krylov_vectors : Option Int) (maxiter : Int)
    (hx0s : ∀ t, x0 = some t → t.shape = b.shape)
    (hx0d : ∀ t, x0 = some t → t.dtype = b.dtype)
    (hrange : ¬(num_krylov_vectors.getD (b.size : Int) ≤ 0 ∨
      num_krylov_vectors.getD (b.size : Int) > (b.size : Int)))
    (htol : ¬tol < 0) (hatol : ¬atol.getD tol < 0) (hK : A_kwargs.isSome) :
    gmresCore s A_mv b A_args A_kwargs x0 tol atol num_krylov_vectors maxiter
      none = (Except.error (PyErr.notImplementedError kwargsMsg), s) := by
  unfold gmresCore
  cases x0 with
  | none => simp [hrange, htol, hatol, hK]
  | some t => simp [hx0s t rfl, hx0d t rfl, hrange, htol, hatol, hK]

/-- A core error is returned by `eigs` unchanged, whatever the routine. -/
theorem eigs_of_core_error {ρ : Type} (impl : EigsCall → ρ) (s s₂ : Caches)
    (A : Nat) (args : Option (List Int)) (initial_state : Option Ten)
    (shape : Option (List Nat)) (dtype : Option Dtype)
    (num_krylov_vecs numeig : Int) (tol : Rat) (which : String) (maxiter : Int)
    (e : PyErr)
    (hcc : eigsCore s A args initial_state shape dtype num_krylov_vecs numeig
      tol which maxiter = (Except.error e, s₂)) :
    eigs impl s A args initial_state shape dtype num_krylov_vecs numeig tol
      which maxiter = (Except.error e, s₂) := by
  unfold eigs
  rw [hcc]

/-- A core error is returned by `eigsh_lanczos` unchanged, whatever the
routine. -/
theorem eigsh_lanczos_of_core_error {ρ : Type} (impl : LanczosCall → ρ)
    (s s₂ : Caches) (A : Nat) (args : Option (List Int))
    (initial_state : Option Ten) (shape : Option (List Nat))
    (dtype : Option Dtype) (num_krylov_vecs numeig : Int) (tol delta : Rat)
    (ndiag : Int) (reorthogonalize : Bool) (e : PyErr)
    (hcc : lanczosCore s A args initial_state shape dtype num_krylov_vecs
      numeig tol delta ndiag reorthogonalize = (Except.error e, s₂)) :
    eigsh_lanczos impl s A args initial_state shape dtype num_krylov_vecs
      numeig tol delta ndiag reorthogonalize = (Except.error e, s₂) := by
  unfold eigsh_lanczos
  rw [hcc]

/-- A core error is returned by `gmres` unchanged, whatever the routine. -/
theorem gmres_of_core_error {β : Type} (gmres_f : GmresCall → GmresIterOut β)
    (s s₂ : Caches) (A_mv : Nat) (b : Ten) (A_args : Option (List Int))
    (A_kwargs : Option (List (String × Int))) (x0 : Option Ten) (tol : Rat)
    (atol : Option Rat) (num_krylov_vectors : Option Int) (maxiter : Int)
    (M : Option Nat) (e : PyErr)
    (hcc : gmresCore s A_mv b A_args A_kwargs x0 tol atol num_krylov_vectors
      maxiter M = (Except.error e, s₂)) :
    gmres gmres_f s A_mv b A_args A_kwargs x0 tol atol num_krylov_vectors
      maxiter M = (Except.error e, s₂) := by
  unfold gmres
  rw [hcc]

/-- C3 counterexample: the claim says every `which` outside the two
supported criteria is rejected before iteration, but `eigs` only rejects the
four listed criteria: the unsupported string "XX" passes validation and the
iteration is invoked. -/
theorem C3_counterexample :
    (eigs (fun call => call) ⟨[], []⟩ 0 none
        (some ⟨true, [2], Dtype.float64⟩) none none 2 1 0 "XX" 0).1 =
      Except.ok ⟨AlgFun.impArnoldi, Wrapped.wrapJit 0, [],
        ⟨true, [2], Dtype.float64⟩, 2, 1, "XX", 0, 0⟩ := by
  rfl

/-- C3 (amended): `eigs` raises the unsupported-`which` ValueError exactly
for the four criteria SI, LI, SM and SR, doing so before any iteration and
leaving the caches unchanged; every other string (including LR and LM)
passes this check. -/
theorem C3_eigs_which_rejects_exactly_four {ρ : Type} (impl : EigsCall → ρ)
    (s : Caches) (A : Nat) (args : Option (List Int))
    (initial_state : Option Ten) (shape : Option (List Nat))
    (dtype : Option Dtype) (num_krylov_vecs numeig : Int) (tol : Rat)
    (which : String) (maxiter : Int) :
    ((eigs impl s A args initial_state shape dtype num_krylov_vecs numeig tol
        which maxiter).1 = Except.error (PyErr.valueError whichMsg) ↔
      (which = "SI" ∨ which = "LI" ∨ which = "SM" ∨ which = "SR")) ∧
    ((which = "SI" ∨ which = "LI" ∨ which = "SM" ∨ which = "SR") →
      eigs impl s A args initial_state shape dtype num_krylov_vecs numeig tol
        which maxiter = (Except.error (PyErr.valueError whichMsg), s)) := by
  constructor
  · rw [eigs_fst_error_iff]
    exact eigsCore_whichMsg_iff s A args initial_state shape dtype
      num_krylov_vecs numeig tol which maxiter
  · intro hf
    exact eigs_of_core_error impl s s A args initial_state shape dtype
      num_krylov_vecs numeig tol which maxiter _
      (eigsCore_whichFire s A args initial_state shape dtype num_krylov_vecs
        numeig tol which maxiter hf)

/-- C3 witness: at `which = "SM"` the amended theorem yields the immediate
ValueError with untouched caches. -/
theorem C3_witness :
    eigs (fun call => call) ⟨[], []⟩ 0 none
        (some ⟨true, [2], Dtype.float64⟩) none none 2 1 0 "SM" 0 =
      (Except.error (PyErr.valueError whichMsg), ⟨[], []⟩) :=
  (C3_eigs_which_rejects_exactly_four (fun call => call) ⟨[], []⟩ 0 none
    (some ⟨true, [2], Dtype.float64⟩) none none 2 1 0 "SM" 0).2
    (Or.inr (Or.inr (Or.inl rfl)))

/-- C5: with `numeig > num_krylov_vecs`, both `eigs` and `eigsh_lanczos`
raise a ValueError before any iteration, leaving the caches unchanged;
with `num_krylov_vecs ≥ numeig` neither raises the Krylov-size ValueError. -/
theorem C5_numeig_requires_krylov_bound {ρ₁ ρ₂ : Type}
    (implE : EigsCall → ρ₁) (implL : LanczosCall → ρ₂) (s₁ s₂ : Caches)
    (A₁ A₂ : Nat) (args₁ args₂ : Option (List Int)) (ist₁ ist₂ : Option Ten)
    (sh₁ sh₂ : Option (List Nat)) (dt₁ dt₂ : Option Dtype)
    (num_krylov_vecs numeig : Int) (tol₁ tol₂ : Rat) (which : String)
    (maxiter : Int) (delta : Rat) (ndiag : Int) (reorthogonalize : Bool) :
    (numeig > num_krylov_vecs →
      isValueError (eigs implE s₁ A₁ args₁ ist₁ sh₁ dt₁ num_krylov_vecs
          numeig tol₁ which maxiter).1 = true ∧
        (eigs implE s₁ A₁ args₁ ist₁ sh₁ dt₁ num_krylov_vecs numeig tol₁
          which maxiter).2 = s₁) ∧
    (numeig > num_krylov_vecs →
      eigsh_lanczos implL s₂ A₂ args₂ ist₂ sh₂ dt₂ num_krylov_vecs numeig
          tol₂ delta ndiag reorthogonalize =
        (Except.error (PyErr.valueError nkvMsg), s₂)) ∧
    (¬numeig > num_krylov_vecs →
      (eigs implE s₁ A₁ args₁ ist₁ sh₁ dt₁ num_krylov_vecs numeig tol₁ which
        maxiter).1 ≠ Except.error (PyErr.valueError nkvMsg)) ∧
    (¬numeig > num_krylov_vecs →
      (eigsh_lanczos implL s₂ A₂ args₂ ist₂ sh₂ dt₂ num_krylov_vecs numeig
        tol₂ delta ndiag reorthogonalize).1 ≠
          Except.error (PyErr.valueError nkvMsg)) := by
  refine ⟨?_, ?_, ?_, ?_⟩
  · intro h
    by_cases hf : which = "SI" ∨ which = "LI" ∨ which = "SM" ∨ which = "SR"
    · have := eigs_of_core_error implE s₁ s₁ A₁ args₁ ist₁ sh₁ dt₁
        num_krylov_vecs numeig tol₁ which maxiter _
        (eigsCore_whichFire s₁ A₁ args₁ ist₁ sh₁ dt₁ num_krylov_vecs numeig
          tol₁ which maxiter hf)
      rw [this]
      exact ⟨rfl, rfl⟩
    · have := eigs_of_core_error implE s₁ s₁ A₁ args₁ ist₁ sh₁ dt₁
        num_krylov_vecs numeig tol₁ which maxiter _
        (eigsCore_nkvFire s₁ A₁ args₁ ist₁ sh₁ dt₁ num_krylov_vecs numeig
          tol₁ which maxiter hf h)
      rw [this]
      exact ⟨rfl, rfl⟩
  · intro h
    exact eigsh_lanczos_of_core_error implL s₂ s₂ A₂ args₂ ist₂ sh₂ dt₂
      num_krylov_vecs numeig tol₂ delta ndiag reorthogonalize _
      (lanczosCore_nkvFire s₂ A₂ args₂ ist₂ sh₂ dt₂ num_krylov_vecs numeig
        tol₂ delta ndiag reorthogonalize h)
  · intro hn heq
    have hc := (eigs_fst_error_iff implE s₁ A₁ args₁ ist₁ sh₁ dt₁
      num_krylov_vecs numeig tol₁ which maxiter _).mp heq
    have := (eigsCore_nkvMsg_iff s₁ A₁ args₁ ist₁ sh₁ dt₁ num_krylov_vecs
      numeig tol₁ which maxiter).mp hc
    exact hn this.2
  · intro hn heq
    have hc := (eigsh_lanczos_fst_error_iff implL s₂ A₂ args₂ ist₂ sh₂ dt₂
      num_krylov_vecs numeig tol₂ delta ndiag reorthogonalize _).mp heq
    have := (lanczosCore_nkvMsg_iff s₂ A₂ args₂ ist₂ sh₂ dt₂ num_krylov_vecs
      numeig tol₂ delta ndiag reorthogonalize).mp hc
    exact hn this

/-- C5 witness: with `numeig = 2 > 1 = num_krylov_vecs` both solvers raise
the ValueError at once. -/
theorem C5_witness :
    isValueError (eigs (fun call => call) ⟨[], []⟩ 0 none
        (some ⟨true, [2], Dtype.float64⟩) none none 1 2 0 "LR" 0).1 = true ∧
      eigsh_lanczos (fun call => call) ⟨[], []⟩ 0 none
          (some ⟨true, [2], Dtype.float64⟩) none none 1 2 0 0 10 false =
        (Except.error (PyErr.valueError nkvMsg), ⟨[], []⟩) :=
  ⟨((C5_numeig_requires_krylov_bound (fun call => call) (fun call => call)
      ⟨[], []⟩ ⟨[], []⟩ 0 0 none none (some ⟨true, [2], Dtype.float64⟩)
      (some ⟨true, [2], Dtype.float64⟩) none none none none 1 2 0 0 "LR" 0 0
      10 false).1 (by decide)).1,
   (C5_numeig_requires_krylov_bound (fun call => call) (fun call => call)
      ⟨[], []⟩ ⟨[], []⟩ 0 0 none none (some ⟨true, [2], Dtype.float64⟩)
      (some ⟨true, [2], Dtype.float64⟩) none none none none 1 2 0 0 "LR" 0 0
      10 false).2.1 (by decide)⟩

/-- C6: provided the Krylov-size check passes, `eigsh_lanczos` raises the
reorthogonalization ValueError exactly when `numeig > 1` and
`reorthogonalize = False`; with `numeig = 1` or `reorthogonalize = True`
this check passes. -/
theorem C6_reorthogonalize_check {ρ : Type} (impl : LanczosCall → ρ)
    (s : Caches) (A : Nat) (args : Option (List Int))
    (initial_state : Option Ten) (shape : Option (List Nat))
    (dtype : Option Dtype) (num_krylov_vecs numeig : Int) (tol delta : Rat)
    (ndiag : Int) (reorthogonalize : Bool)
    (hnk : ¬num_krylov_vecs < numeig) :
    (eigsh_lanczos impl s A args initial_state shape dtype num_krylov_vecs
        numeig tol delta ndiag reorthogonalize).1 =
        Except.error (PyErr.valueError reorthMsg) ↔
      (numeig > 1 ∧ reorthogonalize = false) := by
  rw [eigsh_lanczos_fst_error_iff]
  rw [lanczosCore_reorthMsg_iff]
  simp [hnk]

/-- C6 witness: `numeig = 2` with `reorthogonalize = False` is rejected. -/
theorem C6_witness :
    (eigsh_lanczos (fun call => call) ⟨[], []⟩ 0 none
        (some ⟨true, [2], Dtype.float64⟩) none none 2 2 0 0 10 false).1 =
      Except.error (PyErr.valueError reorthMsg) :=
  (C6_reorthogonalize_check (fun call => call) ⟨[], []⟩ 0 none
      (some ⟨true, [2], Dtype.float64⟩) none none 2 2 0 0 10 false
      (by decide)).mpr ⟨by decide, rfl⟩

/-- C7: an unsupplied `num_krylov_vectors` behaves exactly as the supplied
value `b.size`, and (with a well-formed `x0`) a supplied value triggers the
range ValueError precisely when it is nonpositive or exceeds `b.size`. -/
theorem C7_gmres_krylov_default_and_range {β : Type}
    (gmres_f : GmresCall → GmresIterOut β) (s : Caches) (A_mv : Nat)
    (b : Ten) (A_args : Option (List Int))
    (A_kwargs : Option (List (String × Int))) (x0 : Option Ten) (tol : Rat)
    (atol : Option Rat) (maxiter : Int) (M : Option Nat)
    (hx0s : ∀ t, x0 = some t → t.shape = b.shape)
    (hx0d : ∀ t, x0 = some t → t.dtype = b.dtype) :
    (gmres gmres_f s A_mv b A_args A_kwargs x0 tol atol none maxiter M =
      gmres gmres_f s A_mv b A_args A_kwargs x0 tol atol
        (some (b.size : Int)) maxiter M) ∧
    (∀ v : Int,
      ((gmres gmres_f s A_mv b A_args A_kwargs x0 tol atol (some v) maxiter
          M).1 = Except.error (PyErr.valueError gmresNkvMsg) ↔
        (v ≤ 0 ∨ v > (b.size : Int)))) := by
  constructor
  · rfl
  · intro v
    rw [gmres_fst_error_iff]
    simpa using gmresCore_nkvMsg_iff s A_mv b A_args A_kwargs x0 tol atol
      (some v) maxiter M hx0s hx0d

/-- C7 witness: for a length-2 vector, `num_krylov_vectors = 3` is rejected
with the range ValueError. -/
theorem C7_witness :
    (gmres (fun _ => GmresIterOut.mk () 0 0 true) ⟨[], []⟩ 0
        ⟨true, [2], Dtype.float64⟩ none none none 1 none (some 3) 1
        none).1 = Except.error (PyErr.valueError gmresNkvMsg) :=
  ((C7_gmres_krylov_default_and_range (fun _ => GmresIterOut.mk () 0 0 true)
      ⟨[], []⟩ 0 ⟨true, [2], Dtype.float64⟩ none none none 1 none 1 none
      (fun t ht => Option.noConfusion ht)
      (fun t ht => Option.noConfusion ht)).2 3).mpr (by decide)

/-- C1: on a validated call of any of the three solvers, an operator id not
yet in `_CACHED_MATVECS` gets its wrapped form inserted under exactly that
id (so a distinct id — even of a structurally identical function — always
inserts a new entry), while an id already present leaves the operator cache
unchanged and the invoked iteration receives the previously stored entry;
likewise the algorithm-name entry of `_CACHED_FUNCTIONS` is inserted only
when absent, and a present entry is reused unchanged. -/
theorem C1_operator_identity_cache (s : Caches) (A : Nat)
    (args : Option (List Int)) (st : Ten) (num_krylov_vecs numeig : Int)
    (tol : Rat) (which : String) (maxiter : Int) (delta : Rat) (ndiag : Int)
    (reorthogonalize : Bool) (b : Ten) (gargs : Option (List Int))
    (gtol : Rat) (gatol : Option Rat) (gnk : Option Int) (gmaxiter : Int)
    (hw : ¬(which = "SI" ∨ which = "LI" ∨ which = "SM" ∨ which = "SR"))
    (hn : ¬numeig > num_krylov_vecs) (hjax : st.isJax = true)
    (hln : ¬num_krylov_vecs < numeig)
    (hlr : ¬(numeig > 1 ∧ reorthogonalize = false))
    (hgr : ¬(gnk.getD (b.size : Int) ≤ 0 ∨
      gnk.getD (b.size : Int) > (b.size : Int)))
    (hgt : ¬gtol < 0) (hga : ¬gatol.getD gtol < 0) :
    ((assocLookup s.matvecs A = none →
        (eigs (fun call => call) s A args (some st) none none num_krylov_vecs
            numeig tol which maxiter).2.matvecs =
          (A, Wrapped.wrapJit A) :: s.matvecs) ∧
      (∀ w, assocLookup s.matvecs A = some w →
        (eigs (fun call => call) s A args (some st) none none num_krylov_vecs
            numeig tol which maxiter).2.matvecs = s.matvecs ∧
        ∃ c : EigsCall,
          (eigs (fun call => call) s A args (some st) none none
            num_krylov_vecs numeig tol which maxiter).1 = Except.ok c ∧
          c.matvec = w) ∧
      (assocLookup s.functions "imp_arnoldi" = none →
        (eigs (fun call => call) s A args (some st) none none num_krylov_vecs
            numeig tol which maxiter).2.functions =
          ("imp_arnoldi", AlgFun.impArnoldi) :: s.functions) ∧
      (∀ r, assocLookup s.functions "imp_arnoldi" = some r →
        (eigs (fun call => call) s A args (some st) none none num_krylov_vecs
            numeig tol which maxiter).2.functions = s.functions ∧
        ∃ c : EigsCall,
          (eigs (fun call => call) s A args (some st) none none
            num_krylov_vecs numeig tol which maxiter).1 = Except.ok c ∧
          c.routine = r)) ∧
    ((assocLookup s.matvecs A = none →
        (eigsh_lanczos (fun call => call) s A args (some st) none none
            num_krylov_vecs numeig tol delta ndiag
            reorthogonalize).2.matvecs =
          (A, Wrapped.wrapPlain A) :: s.matvecs) ∧
      (∀ w, assocLookup s.matvecs A = some w →
        (eigsh_lanczos (fun call => call) s A args (some st) none none
            num_krylov_vecs numeig tol delta ndiag
            reorthogonalize).2.matvecs = s.matvecs ∧
        ∃ c : LanczosCall,
          (eigsh_lanczos (fun call => call) s A args (some st) none none
            num_krylov_vecs numeig tol delta ndiag reorthogonalize).1 =
            Except.ok c ∧
          c.matvec = w) ∧
      (assocLookup s.functions "eigsh_lanczos" = none →
        (eigsh_lanczos (fun call => call) s A args (some st) none none
            num_krylov_vecs numeig tol delta ndiag
            reorthogonalize).2.functions =
          ("eigsh_lanczos", AlgFun.eigshLanczos) :: s.functions) ∧
      (∀ r, assocLookup s.functions "eigsh_lanczos" = some r →
        (eigsh_lanczos (fun call => call) s A args (some st) none none
            num_krylov_vecs numeig tol delta ndiag
            reorthogonalize).2.functions = s.functions ∧
        ∃ c : LanczosCall,
          (eigsh_lanczos (fun call => call) s A args (some st) none none
            num_krylov_vecs numeig tol delta ndiag reorthogonalize).1 =
            Except.ok c ∧
          c.routine = r)) ∧
    ((assocLookup s.matvecs A = none →
        (gmres (fun call => GmresIterOut.mk call 0 0 true) s A b gargs none
            none gtol gatol gnk gmaxiter none).2.matvecs =
          (A, Wrapped.wrapPlain A) :: s.matvecs) ∧
      (∀ w, assocLookup s.matvecs A = some w →
        (gmres (fun call => GmresIterOut.mk call 0 0 true) s A b gargs none
            none gtol gatol gnk gmaxiter none).2.matvecs = s.matvecs ∧
        ∃ c : GmresCall,
          (gmres (fun call => GmresIterOut.mk call 0 0 true) s A b gargs none
            none gtol gatol gnk gmaxiter none).1 = Except.ok (c, 0) ∧
          c.matvec = w) ∧
      (assocLookup s.functions "gmres_f" = none →
        (gmres (fun call => GmresIterOut.mk call 0 0 true) s A b gargs none
            none gtol gatol gnk gmaxiter none).2.functions =
          ("gmres_f", AlgFun.gmresF) :: s.functions) ∧
      (∀ r, assocLookup s.functions "gmres_f" = some r →
        (gmres (fun call => GmresIterOut.mk call 0 0 true) s A b gargs none
            none gtol gatol gnk gmaxiter none).2.functions = s.functions ∧
        ∃ c : GmresCall,
          (gmres (fun call => GmresIterOut.mk call 0 0 true) s A b gargs none
            none gtol gatol gnk gmaxiter none).1 = Except.ok (c, 0) ∧
          c.routine = r)) := by
  have hE := eigs_ok_run (fun call => call) s A args st none none
    num_krylov_vecs numeig tol which maxiter hw hn hjax
  have hL := eigsh_lanczos_ok_run (fun call => call) s A args st none none
    num_krylov_vecs numeig tol delta ndiag reorthogonalize hln hlr hjax
  have hG := gmres_ok_run (fun call => GmresIterOut.mk call 0 0 true) s A b
    gargs none gtol gatol gnk gmaxiter (fun t ht => Option.noConfusion ht)
    (fun t ht => Option.noConfusion ht) hgr hgt hga
  refine ⟨⟨?_, ?_, ?_, ?_⟩, ⟨?_, ?_, ?_, ?_⟩, ⟨?_, ?_, ?_, ?_⟩⟩
  · intro hA
    rw [hE]
    simp [hA]
  · intro w hw2
    rw [hE]
    refine ⟨by simp [hw2], ⟨_, rfl, by simp [hw2]⟩⟩
  · intro hF
    rw [hE]
    simp [hF]
  · intro r hr
    rw [hE]
    refine ⟨by simp [hr], ⟨_, rfl, by simp [hr]⟩⟩
  · intro hA
    rw [hL]
    simp [hA]
  · intro w hw2
    rw [hL]
    refine ⟨by simp [hw2], ⟨_, rfl, by simp [hw2]⟩⟩
  · intro hF
    rw [hL]
    simp [hF]
  · intro r hr
    rw [hL]
    refine ⟨by simp [hr], ⟨_, rfl, by simp [hr]⟩⟩
  · intro hA
    rw [hG]
    simp [hA]
  · intro w hw2
    rw [hG]
    refine ⟨by simp [hw2],
      ⟨⟨(assocLookup s.functions "gmres_f").getD AlgFun.gmresF,
        (assocLookup s.matvecs A).getD (Wrapped.wrapPlain A), gargs.getD [],
        b, zeros b.shape b.dtype, gtol, gatol.getD gtol,
        gnk.getD (b.size : Int), gmaxiter⟩, by simp, by simp [hw2]⟩⟩
  · intro hF
    rw [hG]
    simp [hF]
  · intro r hr
    rw [hG]
    refine ⟨by simp [hr],
      ⟨⟨(assocLookup s.functions "gmres_f").getD AlgFun.gmresF,
        (assocLookup s.matvecs A).getD (Wrapped.wrapPlain A), gargs.getD [],
        b, zeros b.shape b.dtype, gtol, gatol.getD gtol,
        gnk.getD (b.size : Int), gmaxiter⟩, by simp, by simp [hr]⟩⟩

/-- C1 witness: a fresh operator id 7 is inserted (wrapped) into the empty
operator cache by a first `eigs` call. -/
theorem C1_witness :
    (eigs (fun call => call) ⟨[], []⟩ 7 none
        (some ⟨true, [2], Dtype.float64⟩) none none 2 1 0 "LR" 1).2.matvecs =
      [(7, Wrapped.wrapJit 7)] :=
  (C1_operator_identity_cache ⟨[], []⟩ 7 none ⟨true, [2], Dtype.float64⟩ 2 1
    0 "LR" 1 0 10 true ⟨true, [2], Dtype.float64⟩ none 1 none (some 1) 1
    (by decide) (by decide) rfl (by decide) (by decide) (by decide)
    (by decide) (by decide)).1.1 rfl

/-- C2: the `(x, info)` pair returned by `gmres` passes the iteration
routine's solution vector through unchanged, with `info = 0` exactly on
reported convergence and `info = n_iter` (the restarts consumed, which the
spec-modelled iteration keeps nonzero on non-convergence) otherwise. -/
theorem C2_gmres_status_code {β : Type} (xv : β) (bet : Rat) (ni : Int)
    (conv : Bool) (s : Caches) (A_mv : Nat) (b : Ten)
    (A_args : Option (List Int)) (x0 : Option Ten) (tol : Rat)
    (atol : Option Rat) (num_krylov_vectors : Option Int) (maxiter : Int)
    (hx0s : ∀ t, x0 = some t → t.shape = b.shape)
    (hx0d : ∀ t, x0 = some t → t.dtype = b.dtype)
    (hrange : ¬(num_krylov_vectors.getD (b.size : Int) ≤ 0 ∨
      num_krylov_vectors.getD (b.size : Int) > (b.size : Int)))
    (htol : ¬tol < 0) (hatol : ¬atol.getD tol < 0) :
    (gmres (fun _ => GmresIterOut.mk xv bet ni conv) s A_mv b A_args none x0
        tol atol num_krylov_vectors maxiter none).1 =
      Except.ok (xv, if conv then 0 else ni) ∧
    (conv = true →
      (gmres (fun _ => GmresIterOut.mk xv bet ni conv) s A_mv b A_args none
        x0 tol atol num_krylov_vectors maxiter none).1 =
        Except.ok (xv, 0)) ∧
    (conv = false →
      (gmres (fun _ => GmresIterOut.mk xv bet ni conv) s A_mv b A_args none
        x0 tol atol num_krylov_vectors maxiter none).1 =
        Except.ok (xv, ni)) ∧
    (GmresIterSpec (GmresIterOut.mk xv bet ni conv) → conv = false →
      (gmres (fun _ => GmresIterOut.mk xv bet ni conv) s A_mv b A_args none
          x0 tol atol num_krylov_vectors maxiter none).1 =
          Except.ok (xv, ni) ∧ ni ≠ 0) := by
  have hG := gmres_ok_run (fun _ => GmresIterOut.mk xv bet ni conv) s A_mv b
    A_args x0 tol atol num_krylov_vectors maxiter hx0s hx0d hrange htol hatol
  refine ⟨?_, ?_, ?_, ?_⟩
  · rw [hG]
  · intro hc
    rw [hG]
    simp [hc]
  · intro hc
    rw [hG]
    simp [hc]
  · intro hspec hc
    have h1 : (1 : Int) ≤ ni := hspec hc
    refine ⟨?_, by omega⟩
    rw [hG]
    simp [hc]

/-- C2 witness: a non-converged iteration reporting 3 restarts yields
`info = 3` with the solution passed through. -/
theorem C2_witness :
    (gmres (fun _ => GmresIterOut.mk (0 : Int) 0 3 false) ⟨[], []⟩ 0
        ⟨true, [2], Dtype.float64⟩ none none none 1 none none 4 none).1 =
      Except.ok ((0 : Int), 3) :=
  (C2_gmres_status_code (0 : Int) 0 3 false ⟨[], []⟩ 0
    ⟨true, [2], Dtype.float64⟩ none none 1 none none 4
    (fun t ht => Option.noConfusion ht) (fun t ht => Option.noConfusion ht)
    (by decide) (by decide) (by decide)).2.2.1 rfl

/-- C4: whenever a solver call raises, it does so before registering the
operator and before invoking the iteration: the caches come back exactly as
supplied, and the outcome is identical for any iteration-routine behaviour
(so the operator was never applied). -/
theorem C4_error_atomicity {ρ₁ ρ₂ ρ₃ : Type} (implE implE2 : EigsCall → ρ₁)
    (implL implL2 : LanczosCall → ρ₂)
    (implG implG2 : GmresCall → GmresIterOut ρ₃) (s₁ s₂ s₃ : Caches)
    (A₁ : Nat) (args₁ : Option (List Int)) (ist₁ : Option Ten)
    (sh₁ : Option (List Nat)) (dt₁ : Option Dtype) (nkv₁ ne₁ : Int)
    (tol₁ : Rat) (which₁ : String) (mi₁ : Int) (A₂ : Nat)
    (args₂ : Option (List Int)) (ist₂ : Option Ten) (sh₂ : Option (List Nat))
    (dt₂ : Option Dtype) (nkv₂ ne₂ : Int) (tol₂ delta₂ : Rat) (nd₂ : Int)
    (re₂ : Bool) (A₃ : Nat) (b₃ : Ten) (args₃ : Option (List Int))
    (kw₃ : Option (List (String × Int))) (x₃ : Option Ten) (tol₃ : Rat)
    (atol₃ : Option Rat) (nk₃ : Option Int) (mi₃ : Int) (M₃ : Option Nat)
    (e₁ e₂ e₃ : PyErr) :
    ((eigs implE s₁ A₁ args₁ ist₁ sh₁ dt₁ nkv₁ ne₁ tol₁ which₁ mi₁).1 =
        Except.error e₁ →
      eigs implE s₁ A₁ args₁ ist₁ sh₁ dt₁ nkv₁ ne₁ tol₁ which₁ mi₁ =
          (Except.error e₁, s₁) ∧
        eigs implE2 s₁ A₁ args₁ ist₁ sh₁ dt₁ nkv₁ ne₁ tol₁ which₁ mi₁ =
          (Except.error e₁, s₁)) ∧
    ((eigsh_lanczos implL s₂ A₂ args₂ ist₂ sh₂ dt₂ nkv₂ ne₂ tol₂ delta₂ nd₂
        re₂).1 = Except.error e₂ →
      eigsh_lanczos implL s₂ A₂ args₂ ist₂ sh₂ dt₂ nkv₂ ne₂ tol₂ delta₂ nd₂
          re₂ = (Except.error e₂, s₂) ∧
        eigsh_lanczos implL2 s₂ A₂ args₂ ist₂ sh₂ dt₂ nkv₂ ne₂ tol₂ delta₂
          nd₂ re₂ = (Except.error e₂, s₂)) ∧
    ((gmres implG s₃ A₃ b₃ args₃ kw₃ x₃ tol₃ atol₃ nk₃ mi₃ M₃).1 =
        Except.error e₃ →
      gmres implG s₃ A₃ b₃ args₃ kw₃ x₃ tol₃ atol₃ nk₃ mi₃ M₃ =
          (Except.error e₃, s₃) ∧
        gmres implG2 s₃ A₃ b₃ args₃ kw₃ x₃ tol₃ atol₃ nk₃ mi₃ M₃ =
          (Except.error e₃, s₃)) := by
  refine ⟨?_, ?_, ?_⟩
  · intro h
    have hc := (eigs_fst_error_iff implE s₁ A₁ args₁ ist₁ sh₁ dt₁ nkv₁ ne₁
      tol₁ which₁ mi₁ e₁).mp h
    have hcc := eigsCore_error_caches s₁ A₁ args₁ ist₁ sh₁ dt₁ nkv₁ ne₁ tol₁
      which₁ mi₁ e₁ hc
    exact ⟨eigs_of_core_error implE s₁ s₁ A₁ args₁ ist₁ sh₁ dt₁ nkv₁ ne₁
        tol₁ which₁ mi₁ e₁ hcc,
      eigs_of_core_error implE2 s₁ s₁ A₁ args₁ ist₁ sh₁ dt₁ nkv₁ ne₁ tol₁
        which₁ mi₁ e₁ hcc⟩
  · intro h
    have hc := (eigsh_lanczos_fst_error_iff implL s₂ A₂ args₂ ist₂ sh₂ dt₂
      nkv₂ ne₂ tol₂ delta₂ nd₂ re₂ e₂).mp h
    have hcc := lanczosCore_error_caches s₂ A₂ args₂ ist₂ sh₂ dt₂ nkv₂ ne₂
      tol₂ delta₂ nd₂ re₂ e₂ hc
    exact ⟨eigsh_lanczos_of_core_error implL s₂ s₂ A₂ args₂ ist₂ sh₂ dt₂
        nkv₂ ne₂ tol₂ delta₂ nd₂ re₂ e₂ hcc,
      eigsh_lanczos_of_core_error implL2 s₂ s₂ A₂ args₂ ist₂ sh₂ dt₂ nkv₂
        ne₂ tol₂ delta₂ nd₂ re₂ e₂ hcc⟩
  · intro h
    have hc := (gmres_fst_error_iff implG s₃ A₃ b₃ args₃ kw₃ x₃ tol₃ atol₃
      nk₃ mi₃ M₃ e₃).mp h
    have hcc := gmresCore_error_caches s₃ A₃ b₃ args₃ kw₃ x₃ tol₃ atol₃ nk₃
      mi₃ M₃ e₃ hc
    exact ⟨gmres_of_core_error implG s₃ s₃ A₃ b₃ args₃ kw₃ x₃ tol₃ atol₃ nk₃
        mi₃ M₃ e₃ hcc,
      gmres_of_core_error implG2 s₃ s₃ A₃ b₃ args₃ kw₃ x₃ tol₃ atol₃ nk₃ mi₃
        M₃ e₃ hcc⟩

/-- C4 witness: three erroring calls (unsupported `which`, missing
reorthogonalization, supplied preconditioner) all return the starting empty
caches untouched. -/
theorem C4_witness :
    eigs (fun call => call) ⟨[], []⟩ 0 none
        (some ⟨true, [2], Dtype.float64⟩) none none 1 1 0 "SM" 0 =
      (Except.error (PyErr.valueError whichMsg), ⟨[], []⟩) ∧
    eigsh_lanczos (fun call => call) ⟨[], []⟩ 0 none
        (some ⟨true, [2], Dtype.float64⟩) none none 2 2 0 0 10 false =
      (Except.error (PyErr.valueError reorthMsg), ⟨[], []⟩) ∧
    gmres (fun _ => GmresIterOut.mk () 0 0 true) ⟨[], []⟩ 0
        ⟨true, [2], Dtype.float64⟩ none none none 1 none none 1 (some 5) =
      (Except.error (PyErr.notImplementedError mMsg), ⟨[], []⟩) := by
  have h := C4_error_atomicity (fun call => call) (fun call => call)
    (fun call => call) (fun call => call)
    (fun _ => GmresIterOut.mk () 0 0 true)
    (fun _ => GmresIterOut.mk () 0 0 true) ⟨[], []⟩ ⟨[], []⟩ ⟨[], []⟩ 0 none
    (some ⟨true, [2], Dtype.float64⟩) none none 1 1 0 "SM" 0 0 none
    (some ⟨true, [2], Dtype.float64⟩) none none 2 2 0 0 10 false 0
    ⟨true, [2], Dtype.float64⟩ none none none 1 none none 1 (some 5)
    (PyErr.valueError whichMsg) (PyErr.valueError reorthMsg)
    (PyErr.notImplementedError mMsg)
  exact ⟨(h.1 rfl).1, (h.2.1 rfl).1, (h.2.2 rfl).1⟩

/-- C8 counterexample: with preconditioner `M` supplied but an `x0` of the
wrong shape, `gmres` raises the shape ValueError, not the unsupported-feature
NotImplementedError — so "whenever M is supplied" is too strong. -/
theorem C8_counterexample :
    (gmres (fun _ => GmresIterOut.mk () 0 0 true) ⟨[], []⟩ 0
        ⟨true, [2], Dtype.float64⟩ none none
        (some ⟨true, [3], Dtype.float64⟩) 1 none none 1 (some 5)).1 =
      Except.error (PyErr.valueError x0ShapeMsg) ∧
    isNotImplemented (gmres (fun _ => GmresIterOut.mk () 0 0 true) ⟨[], []⟩ 0
        ⟨true, [2], Dtype.float64⟩ none none
        (some ⟨true, [3], Dtype.float64⟩) 1 none none 1 (some 5)).1 =
      false :=
  ⟨rfl, rfl⟩

/-- C8 (amended): once the invalid-argument (ValueError) checks pass,
`gmres` raises a NotImplementedError exactly when a preconditioner or
operator keyword arguments are supplied, and that error is not of the
ValueError class; with neither supplied no NotImplementedError is raised. -/
theorem C8_unsupported_features {β : Type}
    (gmres_f : GmresCall → GmresIterOut β) (s : Caches) (A_mv : Nat)
    (b : Ten) (A_args : Option (List Int))
    (A_kwargs : Option (List (String × Int))) (x0 : Option Ten) (tol : Rat)
    (atol : Option Rat) (num_krylov_vectors : Option Int) (maxiter : Int)
    (M : Option Nat)
    (hx0s : ∀ t, x0 = some t → t.shape = b.shape)
    (hx0d : ∀ t, x0 = some t → t.dtype = b.dtype)
    (hrange : ¬(num_krylov_vectors.getD (b.size : Int) ≤ 0 ∨
      num_krylov_vectors.getD (b.size : Int) > (b.size : Int)))
    (htol : ¬tol < 0) (hatol : ¬atol.getD tol < 0) :
    (isNotImplemented (gmres gmres_f s A_mv b A_args A_kwargs x0 tol atol
        num_krylov_vectors maxiter M).1 = true ↔
      (M.isSome ∨ A_kwargs.isSome)) ∧
    ((M.isSome ∨ A_kwargs.isSome) →
      isValueError (gmres gmres_f s A_mv b A_args A_kwargs x0 tol atol
          num_krylov_vectors maxiter M).1 = false ∧
        (gmres gmres_f s A_mv b A_args A_kwargs x0 tol atol
          num_krylov_vectors maxiter M).2 = s) := by
  rcases M with _ | m
  · rcases A_kwargs with _ | k
    · have h := gmres_ok_run gmres_f s A_mv b A_args x0 tol atol
        num_krylov_vectors maxiter hx0s hx0d hrange htol hatol
      rw [h]
      simp [isNotImplemented, isValueError]
    · have h := gmres_of_core_error gmres_f s s A_mv b A_args (some k) x0
        tol atol num_krylov_vectors maxiter none _
        (gmresCore_kwargsFire s A_mv b A_args (some k) x0 tol atol
          num_krylov_vectors maxiter hx0s hx0d hrange htol hatol rfl)
      rw [h]
      simp [isNotImplemented, isValueError]
  · have h := gmres_of_core_error gmres_f s s A_mv b A_args A_kwargs x0 tol
      atol num_krylov_vectors maxiter (some m) _
      (gmresCore_MFire s A_mv b A_args A_kwargs x0 tol atol
        num_krylov_vectors maxiter (some m) hx0s hx0d hrange htol hatol rfl)
    rw [h]
    simp [isNotImplemented, isValueError]

/-- C8 witness: an otherwise valid call with `M` supplied raises the
NotImplementedError. -/
theorem C8_witness :
    isNotImplemented (gmres (fun _ => GmresIterOut.mk () 0 0 true) ⟨[], []⟩
        0 ⟨true, [2], Dtype.float64⟩ none none none 1 none none 1
        (some 5)).1 = true :=
  (C8_unsupported_features (fun _ => GmresIterOut.mk () 0 0 true) ⟨[], []⟩ 0
    ⟨true, [2], Dtype.float64⟩ none none none 1 none none 1 (some 5)
    (fun t ht => Option.noConfusion ht) (fun t ht => Option.noConfusion ht)
    (by decide) (by decide) (by decide)).1.mpr (Or.inl rfl)

/-- C9: neither cache ever loses or changes an entry: every run of any of
the three solvers either leaves each cache untouched or prepends a single
binding at a key that was absent, so every existing binding survives
unchanged. -/
theorem C9_caches_insert_only {ρ₁ ρ₂ ρ₃ : Type} (implE : EigsCall → ρ₁)
    (implL : LanczosCall → ρ₂) (implG : GmresCall → GmresIterOut ρ₃)
    (s₁ s₂ s₃ : Caches) (A₁ : Nat) (args₁ : Option (List Int))
    (ist₁ : Option Ten) (sh₁ : Option (List Nat)) (dt₁ : Option Dtype)
    (nkv₁ ne₁ : Int) (tol₁ : Rat) (which₁ : String) (mi₁ : Int) (A₂ : Nat)
    (args₂ : Option (List Int)) (ist₂ : Option Ten) (sh₂ : Option (List Nat))
    (dt₂ : Option Dtype) (nkv₂ ne₂ : Int) (tol₂ delta₂ : Rat) (nd₂ : Int)
    (re₂ : Bool) (A₃ : Nat) (b₃ : Ten) (args₃ : Option (List Int))
    (kw₃ : Option (List (String × Int))) (x₃ : Option Ten) (tol₃ : Rat)
    (atol₃ : Option Rat) (nk₃ : Option Int) (mi₃ : Int) (M₃ : Option Nat) :
    (InsertOnlyStep s₁.matvecs
        (eigs implE s₁ A₁ args₁ ist₁ sh₁ dt₁ nkv₁ ne₁ tol₁ which₁
          mi₁).2.matvecs ∧
      InsertOnlyStep s₁.functions
        (eigs implE s₁ A₁ args₁ ist₁ sh₁ dt₁ nkv₁ ne₁ tol₁ which₁
          mi₁).2.functions) ∧
    (InsertOnlyStep s₂.matvecs
        (eigsh_lanczos implL s₂ A₂ args₂ ist₂ sh₂ dt₂ nkv₂ ne₂ tol₂ delta₂
          nd₂ re₂).2.matvecs ∧
      InsertOnlyStep s₂.functions
        (eigsh_lanczos implL s₂ A₂ args₂ ist₂ sh₂ dt₂ nkv₂ ne₂ tol₂ delta₂
          nd₂ re₂).2.functions) ∧
    (InsertOnlyStep s₃.matvecs
        (gmres implG s₃ A₃ b₃ args₃ kw₃ x₃ tol₃ atol₃ nk₃ mi₃
          M₃).2.matvecs ∧
      InsertOnlyStep s₃.functions
        (gmres implG s₃ A₃ b₃ args₃ kw₃ x₃ tol₃ atol₃ nk₃ mi₃
          M₃).2.functions) := by
  refine ⟨⟨?_, ?_⟩, ⟨?_, ?_⟩, ⟨?_, ?_⟩⟩
  · rw [eigs_snd_eq]
    exact (eigsCore_insertOnly s₁ A₁ args₁ ist₁ sh₁ dt₁ nkv₁ ne₁ tol₁ which₁
      mi₁).1
  · rw [eigs_snd_eq]
    exact (eigsCore_insertOnly s₁ A₁ args₁ ist₁ sh₁ dt₁ nkv₁ ne₁ tol₁ which₁
      mi₁).2
  · rw [eigsh_lanczos_snd_eq]
    exact (lanczosCore_insertOnly s₂ A₂ args₂ ist₂ sh₂ dt₂ nkv₂ ne₂ tol₂
      delta₂ nd₂ re₂).1
  · rw [eigsh_lanczos_snd_eq]
    exact (lanczosCore_insertOnly s₂ A₂ args₂ ist₂ sh₂ dt₂ nkv₂ ne₂ tol₂
      delta₂ nd₂ re₂).2
  · rw [gmres_snd_eq]
    exact (gmresCore_insertOnly s₃ A₃ b₃ args₃ kw₃ x₃ tol₃ atol₃ nk₃ mi₃
      M₃).1
  · rw [gmres_snd_eq]
    exact (gmresCore_insertOnly s₃ A₃ b₃ args₃ kw₃ x₃ tol₃ atol₃ nk₃ mi₃
      M₃).2

/-- C9 witness: a cache already holding operator id 5 evolves by fresh
insertion only under an `eigs` call with the different id 7. -/
theorem C9_witness :
    InsertOnlyStep [(5, Wrapped.wrapPlain 5)]
      (eigs (fun call => call) ⟨[(5, Wrapped.wrapPlain 5)], []⟩ 7 none
        (some ⟨true, [2], Dtype.float64⟩) none none 2 1 0 "LR" 1).2.matvecs :=
  (C9_caches_insert_only (fun call => call) (fun call => call)
    (fun _ => GmresIterOut.mk () 0 0 true) ⟨[(5, Wrapped.wrapPlain 5)], []⟩
    ⟨[], []⟩ ⟨[], []⟩ 7 none (some ⟨true, [2], Dtype.float64⟩) none none 2 1
    0 "LR" 1 0 none none none none 1 1 0 0 10 false 0
    ⟨true, [2], Dtype.float64⟩ none none none 1 none none 1 none).1.1

/-- C10 counterexample: an empty keyword dictionary is indeed not `None`,
but with an `x0` of mismatched dtype the call raises the dtype ValueError,
not the NotImplementedError — so "for every non-None A_kwargs" is too
strong. -/
theorem C10_counterexample :
    (gmres (fun _ => GmresIterOut.mk () 0 0 true) ⟨[], []⟩ 0
        ⟨true, [2], Dtype.float64⟩ none (some [])
        (some ⟨true, [2], Dtype.complex128⟩) 1 none none 1 none).1 =
      Except.error (PyErr.valueError x0DtypeMsg) ∧
    isNotImplemented (gmres (fun _ => GmresIterOut.mk () 0 0 true) ⟨[], []⟩
        0 ⟨true, [2], Dtype.float64⟩ none (some [])
        (some ⟨true, [2], Dtype.complex128⟩) 1 none none 1 none).1 =
      false :=
  ⟨rfl, rfl⟩

/-- C10 (amended): with no preconditioner and the invalid-argument
(ValueError) checks passing, `gmres` raises the NotImplementedError exactly
when `A_kwargs` is supplied — the empty dictionary included — and
`A_kwargs = None` avoids it. -/
theorem C10_kwargs_check {β : Type} (gmres_f : GmresCall → GmresIterOut β)
    (s : Caches) (A_mv : Nat) (b : Ten) (A_args : Option (List Int))
    (A_kwargs : Option (List (String × Int))) (x0 : Option Ten) (tol : Rat)
    (atol : Option Rat) (num_krylov_vectors : Option Int) (maxiter : Int)
    (hx0s : ∀ t, x0 = some t → t.shape = b.shape)
    (hx0d : ∀ t, x0 = some t → t.dtype = b.dtype)
    (hrange : ¬(num_krylov_vectors.getD (b.size : Int) ≤ 0 ∨
      num_krylov_vectors.getD (b.size : Int) > (b.size : Int)))
    (htol : ¬tol < 0) (hatol : ¬atol.getD tol < 0) :
    (isNotImplemented (gmres gmres_f s A_mv b A_args A_kwargs x0 tol atol
        num_krylov_vectors maxiter none).1 = true ↔ A_kwargs.isSome) ∧
    (A_kwargs = some [] →
      gmres gmres_f s A_mv b A_args A_kwargs x0 tol atol num_krylov_vectors
        maxiter none =
        (Except.error (PyErr.notImplementedError kwargsMsg), s)) := by
  constructor
  · rcases A_kwargs with _ | k
    · have h := gmres_ok_run gmres_f s A_mv b A_args x0 tol atol
        num_krylov_vectors maxiter hx0s hx0d hrange htol hatol
      rw [h]
      simp [isNotImplemented]
    · have h := gmres_of_core_error gmres_f s s A_mv b A_args (some k) x0
        tol atol num_krylov_vectors maxiter none _
        (gmresCore_kwargsFire s A_mv b A_args (some k) x0 tol atol
          num_krylov_vectors maxiter hx0s hx0d hrange htol hatol rfl)
      rw [h]
      simp [isNotImplemented]
  · intro hk
    subst hk
    exact gmres_of_core_error gmres_f s s A_mv b A_args (some []) x0 tol
      atol num_krylov_vectors maxiter none _
      (gmresCore_kwargsFire s A_mv b A_args (some []) x0 tol atol
        num_krylov_vectors maxiter hx0s hx0d hrange htol hatol rfl)

/-- C10 witness: an otherwise valid call with `A_kwargs` the empty
dictionary raises the NotImplementedError with untouched caches. -/
theorem C10_witness :
    gmres (fun _ => GmresIterOut.mk () 0 0 true) ⟨[], []⟩ 0
        ⟨true, [2], Dtype.float64⟩ none (some []) none 1 none none 1 none =
      (Except.error (PyErr.notImplementedError kwargsMsg), ⟨[], []⟩) :=
  (C10_kwargs_check (fun _ => GmresIterOut.mk () 0 0 true) ⟨[], []⟩ 0
    ⟨true, [2], Dtype.float64⟩ none (some []) none 1 none none 1
    (fun t ht => Option.noConfusion ht) (fun t ht => Option.noConfusion ht)
    (by decide) (by decide) (by decide)).2 rfl

end TensorNetworkJax
